import Mathlib

/-!
# A verification development for a slice of the WebKit sources shipped with JavaFX

Shallow embedding of

* `WebCore/platform/graphics/GraphicsContext.cpp` (state stack, state setters, state
  diffing with `changesFromState` and `accumulate`, `adjustLineToPixelBoundaries`),
* `WebCore/crypto/openssl/CryptoAlgorithmRSA_PSSOpenSSL.cpp` (`platformSign`, `platformVerify`),
* `WebCore/accessibility/AXCoreObject.h` (roles, ancestor search, live regions, spin buttons),
* `WebGPU/WGSL/AST/ASTTypeAlias.h` (the type-alias node).

The float members of the graphics state are values of `FloatValue` (a finite number read as
a rational, an infinity, or NaN) and are compared as the code compares floats; the
coordinates and the width of `adjustLineToPixelBoundaries` are read as exact rationals.
Pointers to reference-counted objects are optional identifiers, and calls into the platform
layer or into a `GraphicsContextImpl` are recorded in a trace carried by the context.
-/

namespace WebCore

/-! ## Graphics types used by `GraphicsContextState` -/

/-- Modelled from the spec: the `Color` class is declared outside the files embedded here; a color
is either the default-constructed (invalid) color or carries a packed value. -/
inductive Color where
  | invalid
  | rgba (value : Nat)
  deriving DecidableEq, Repr

/-- A value of the type `float`: a finite number, read as a rational, an infinity, or
NaN. -/
inductive FloatValue where
  | finite (value : ℚ)
  | infinity (negative : Bool)
  | nan
  deriving DecidableEq

namespace FloatValue

/-- The comparison `==` of two floats: NaN is equal to nothing, not even to itself. -/
def equal : FloatValue → FloatValue → Bool
  | .nan, _ => false
  | _, .nan => false
  | a, b => decide (a = b)

/-- The comparison `!=` of two floats, the negation of `==`. -/
def notEqual (a b : FloatValue) : Bool := !a.equal b

end FloatValue

/-- Modelled from the spec: `FloatSize` is declared outside the files embedded here. -/
structure FloatSize where
  width : FloatValue
  height : FloatValue
  deriving DecidableEq

/-- Modelled from the spec: the operator `!=` of `FloatSize`, which compares the widths and
the heights as floats. -/
def FloatSize.notEqual (a b : FloatSize) : Bool :=
  a.width.notEqual b.width || a.height.notEqual b.height

/-- Modelled from the spec: `FloatPoint` is declared outside the files embedded here. -/
structure FloatPoint where
  x : ℚ
  y : ℚ
  deriving DecidableEq

/-- Modelled from the spec: the `StrokeStyle` enumeration is declared outside the
files embedded here; `GraphicsContext.cpp` names `DottedStroke` and `DashedStroke`. -/
inductive StrokeStyle where
  | NoStroke
  | SolidStroke
  | DottedStroke
  | DashedStroke
  | DoubleStroke
  | WavyStroke
  deriving DecidableEq, Repr

/-- Modelled from the spec: `WindRule` is declared outside the files embedded here. -/
inductive WindRule where
  | NonZero
  | EvenOdd
  deriving DecidableEq, Repr

/-- Enumerations and small value classes whose declarations are outside the files embedded here
are kept as numeric codes. -/
abbrev CompositeOperator := Nat

/-- Numeric code of a blend mode. -/
abbrev BlendMode := Nat

/-- Raw value of the `TextDrawingModeFlags` option set. -/
abbrev TextDrawingModeFlags := Nat

/-- Numeric code of an interpolation quality. -/
abbrev InterpolationQuality := Nat

/-- An affine transform, kept as its six coefficients. -/
abbrev AffineTransform := List ℚ

/-- Identity of a reference-counted `Gradient`. -/
abbrev GradientRef := Nat

/-- Identity of a reference-counted `Pattern`. -/
abbrev PatternRef := Nat

/-- The flags of `GraphicsContextState::Change` named in `GraphicsContext.cpp`
(the dark-appearance flag is compiled out on this platform). -/
inductive Change where
  | StrokeGradientChange
  | StrokePatternChange
  | FillGradientChange
  | FillPatternChange
  | StrokeThicknessChange
  | StrokeColorChange
  | StrokeStyleChange
  | FillColorChange
  | FillRuleChange
  | ShadowChange
  | ShadowsIgnoreTransformsChange
  | AlphaChange
  | CompositeOperationChange
  | BlendModeChange
  | TextDrawingModeChange
  | ShouldAntialiasChange
  | ShouldSmoothFontsChange
  | ShouldSubpixelQuantizeFontsChange
  | DrawLuminanceMaskChange
  | ImageInterpolationQualityChange
  deriving DecidableEq, Repr

/-- The members of `GraphicsContextState` read or written in `GraphicsContext.cpp`. -/
structure GraphicsContextState where
  strokeGradient : Option GradientRef
  strokePattern : Option PatternRef
  fillGradient : Option GradientRef
  fillPattern : Option PatternRef
  strokeGradientSpaceTransform : AffineTransform
  fillGradientSpaceTransform : AffineTransform
  shadowOffset : FloatSize
  shadowBlur : FloatValue
  shadowColor : Color
  strokeThickness : FloatValue
  textDrawingMode : TextDrawingModeFlags
  strokeColor : Color
  fillColor : Color
  strokeStyle : StrokeStyle
  fillRule : WindRule
  alpha : FloatValue
  compositeOperator : CompositeOperator
  blendMode : BlendMode
  imageInterpolationQuality : InterpolationQuality
  shouldAntialias : Bool
  shouldSmoothFonts : Bool
  shouldSubpixelQuantizeFonts : Bool
  shadowsIgnoreTransforms : Bool
  drawLuminanceMask : Bool
  deriving DecidableEq

/-- Calls that leave `GraphicsContext.cpp`: into the `GraphicsContextImpl`, into the platform
layer, and into the error log. -/
inductive Call where
  | implSave
  | implRestore
  | implUpdateState (state : GraphicsContextState) (flag : Change)
  | implClearShadow
  | savePlatformState
  | restorePlatformState
  | setPlatformStrokeThickness (thickness : FloatValue)
  | setPlatformStrokeStyle (style : StrokeStyle)
  | setPlatformStrokeColor (color : Color)
  | setPlatformShadow (offset : FloatSize) (blur : FloatValue) (color : Color)
  | clearPlatformShadow
  | setPlatformFillColor (color : Color)
  | setPlatformShouldAntialias (b : Bool)
  | setPlatformShouldSmoothFonts (b : Bool)
  | setPlatformImageInterpolationQuality (q : InterpolationQuality)
  | setPlatformTextDrawingMode (mode : TextDrawingModeFlags)
  | setPlatformAlpha (alpha : FloatValue)
  | setPlatformCompositeOperation (op : CompositeOperator) (blendMode : BlendMode)
  | logError (message : String)
  deriving DecidableEq

/-- The `GraphicsContext` members used by the state functions. `m_impl` records whether the
implementation pointer is non-null; `paintingDisabled` is the value of the accessor of that
name, which is declared in the header; `calls` is the trace of outgoing calls, oldest
first. -/
structure GraphicsContext where
  m_state : GraphicsContextState
  m_stack : List GraphicsContextState
  m_impl : Bool
  paintingDisabled : Bool
  calls : List Call
  deriving DecidableEq

namespace GraphicsContext

/-- Record an outgoing call. -/
def emit (c : GraphicsContext) (call : Call) : GraphicsContext :=
  { c with calls := c.calls ++ [call] }

/-- Embedding of `GraphicsContext::save`. -/
def save (c : GraphicsContext) : GraphicsContext :=
  if c.paintingDisabled then c
  else
    let c1 := { c with m_stack := c.m_stack ++ [c.m_state] }
    if c1.m_impl then c1.emit Call.implSave
    else c1.emit Call.savePlatformState

/-- Embedding of `GraphicsContext::restore`. -/
def restore (c : GraphicsContext) : GraphicsContext :=
  if c.paintingDisabled then c
  else
    match c.m_stack.getLast? with
    | none => c.emit (Call.logError "ERROR void GraphicsContext::restore() stack is empty")
    | some top =>
      let c1 := { c with m_state := top, m_stack := c.m_stack.dropLast }
      let c2 := if c1.m_stack.isEmpty then { c1 with m_stack := [] } else c1
      if c2.m_impl then c2.emit Call.implRestore
      else c2.emit Call.restorePlatformState

/-- The tail shared by most setters: forward the new state to the implementation when there
is one, otherwise make the platform call. -/
def notify (c : GraphicsContext) (flag : Change) (platform : Option Call) : GraphicsContext :=
  if c.m_impl then c.emit (Call.implUpdateState c.m_state flag)
  else
    match platform with
    | some call => c.emit call
    | none => c

/-- Embedding of `GraphicsContext::setStrokeThickness`. -/
def setStrokeThickness (c : GraphicsContext) (thickness : FloatValue) : GraphicsContext :=
  let c1 := { c with m_state := { c.m_state with strokeThickness := thickness } }
  c1.notify Change.StrokeThicknessChange (some (Call.setPlatformStrokeThickness thickness))

/-- Embedding of `GraphicsContext::setStrokeStyle`. -/
def setStrokeStyle (c : GraphicsContext) (style : StrokeStyle) : GraphicsContext :=
  let c1 := { c with m_state := { c.m_state with strokeStyle := style } }
  c1.notify Change.StrokeStyleChange (some (Call.setPlatformStrokeStyle style))

/-- Embedding of `GraphicsContext::setStrokeColor`. -/
def setStrokeColor (c : GraphicsContext) (color : Color) : GraphicsContext :=
  let c1 := { c with m_state := { c.m_state with
    strokeColor := color, strokeGradient := none, strokePattern := none } }
  c1.notify Change.StrokeColorChange (some (Call.setPlatformStrokeColor color))

/-- Embedding of `GraphicsContext::setShadow`. -/
def setShadow (c : GraphicsContext) (offset : FloatSize) (blur : FloatValue) (color : Color) :
    GraphicsContext :=
  let c1 := { c with m_state := { c.m_state with
    shadowOffset := offset, shadowBlur := blur, shadowColor := color } }
  c1.notify Change.ShadowChange (some (Call.setPlatformShadow offset blur color))

/-- Embedding of `GraphicsContext::setLegacyShadow` (the legacy-radius member is compiled out
on this platform). -/
def setLegacyShadow (c : GraphicsContext) (offset : FloatSize) (blur : FloatValue) (color : Color) :
    GraphicsContext :=
  let c1 := { c with m_state := { c.m_state with
    shadowOffset := offset, shadowBlur := blur, shadowColor := color } }
  c1.notify Change.ShadowChange (some (Call.setPlatformShadow offset blur color))

/-- Embedding of `GraphicsContext::clearShadow`. -/
def clearShadow (c : GraphicsContext) : GraphicsContext :=
  let c1 := { c with m_state := { c.m_state with
    shadowOffset := ⟨.finite 0, .finite 0⟩, shadowBlur := .finite 0,
    shadowColor := Color.invalid } }
  if c1.m_impl then c1.emit Call.implClearShadow
  else c1.emit Call.clearPlatformShadow

/-- Embedding of `GraphicsContext::setFillColor`. -/
def setFillColor (c : GraphicsContext) (color : Color) : GraphicsContext :=
  let c1 := { c with m_state := { c.m_state with
    fillColor := color, fillGradient := none, fillPattern := none } }
  c1.notify Change.FillColorChange (some (Call.setPlatformFillColor color))

/-- Embedding of `GraphicsContext::setShadowsIgnoreTransforms`. -/
def setShadowsIgnoreTransforms (c : GraphicsContext) (b : Bool) : GraphicsContext :=
  let c1 := { c with m_state := { c.m_state with shadowsIgnoreTransforms := b } }
  c1.notify Change.ShadowsIgnoreTransformsChange none

/-- Embedding of `GraphicsContext::setShouldAntialias`. -/
def setShouldAntialias (c : GraphicsContext) (b : Bool) : GraphicsContext :=
  let c1 := { c with m_state := { c.m_state with shouldAntialias := b } }
  c1.notify Change.ShouldAntialiasChange (some (Call.setPlatformShouldAntialias b))

/-- Embedding of `GraphicsContext::setShouldSmoothFonts`. -/
def setShouldSmoothFonts (c : GraphicsContext) (b : Bool) : GraphicsContext :=
  let c1 := { c with m_state := { c.m_state with shouldSmoothFonts := b } }
  c1.notify Change.ShouldSmoothFontsChange (some (Call.setPlatformShouldSmoothFonts b))

/-- Embedding of `GraphicsContext::setShouldSubpixelQuantizeFonts`. -/
def setShouldSubpixelQuantizeFonts (c : GraphicsContext) (b : Bool) : GraphicsContext :=
  let c1 := { c with m_state := { c.m_state with shouldSubpixelQuantizeFonts := b } }
  c1.notify Change.ShouldSubpixelQuantizeFontsChange none

/-- Embedding of `GraphicsContext::setImageInterpolationQuality`. -/
def setImageInterpolationQuality (c : GraphicsContext) (q : InterpolationQuality) :
    GraphicsContext :=
  let c1 := { c with m_state := { c.m_state with imageInterpolationQuality := q } }
  if c1.paintingDisabled then c1
  else c1.notify Change.ImageInterpolationQualityChange
    (some (Call.setPlatformImageInterpolationQuality q))

/-- Embedding of `GraphicsContext::setStrokePattern`. -/
def setStrokePattern (c : GraphicsContext) (pattern : PatternRef) : GraphicsContext :=
  let c1 := { c with m_state := { c.m_state with
    strokeColor := Color.invalid, strokeGradient := none, strokePattern := some pattern } }
  c1.notify Change.StrokePatternChange none

/-- Embedding of `GraphicsContext::setFillPattern`. -/
def setFillPattern (c : GraphicsContext) (pattern : PatternRef) : GraphicsContext :=
  let c1 := { c with m_state := { c.m_state with
    fillColor := Color.invalid, fillGradient := none, fillPattern := some pattern } }
  c1.notify Change.FillPatternChange none

/-- Embedding of `GraphicsContext::setStrokeGradient`. -/
def setStrokeGradient (c : GraphicsContext) (gradient : GradientRef)
    (strokeGradientSpaceTransform : AffineTransform) : GraphicsContext :=
  let c1 := { c with m_state := { c.m_state with
    strokeColor := Color.invalid, strokeGradient := some gradient,
    strokeGradientSpaceTransform := strokeGradientSpaceTransform, strokePattern := none } }
  c1.notify Change.StrokeGradientChange none

/-- Embedding of `GraphicsContext::setFillRule`. -/
def setFillRule (c : GraphicsContext) (fillRule : WindRule) : GraphicsContext :=
  let c1 := { c with m_state := { c.m_state with fillRule := fillRule } }
  c1.notify Change.FillRuleChange none

/-- Embedding of `GraphicsContext::setFillGradient`. -/
def setFillGradient (c : GraphicsContext) (gradient : GradientRef)
    (fillGradientSpaceTransform : AffineTransform) : GraphicsContext :=
  let c1 := { c with m_state := { c.m_state with
    fillColor := Color.invalid, fillGradient := some gradient,
    fillGradientSpaceTransform := fillGradientSpaceTransform, fillPattern := none } }
  c1.notify Change.FillGradientChange none

/-- Embedding of `GraphicsContext::setTextDrawingMode`. -/
def setTextDrawingMode (c : GraphicsContext) (mode : TextDrawingModeFlags) : GraphicsContext :=
  let c1 := { c with m_state := { c.m_state with textDrawingMode := mode } }
  if c1.paintingDisabled then c1
  else c1.notify Change.TextDrawingModeChange (some (Call.setPlatformTextDrawingMode mode))

/-- Embedding of `GraphicsContext::setAlpha`. -/
def setAlpha (c : GraphicsContext) (alpha : FloatValue) : GraphicsContext :=
  let c1 := { c with m_state := { c.m_state with alpha := alpha } }
  c1.notify Change.AlphaChange (some (Call.setPlatformAlpha alpha))

/-- Embedding of `GraphicsContext::setCompositeOperation`. -/
def setCompositeOperation (c : GraphicsContext) (compositeOperation : CompositeOperator)
    (blendMode : BlendMode) : GraphicsContext :=
  let c1 := { c with m_state := { c.m_state with
    compositeOperator := compositeOperation, blendMode := blendMode } }
  c1.notify Change.CompositeOperationChange
    (some (Call.setPlatformCompositeOperation compositeOperation blendMode))

/-- Embedding of `GraphicsContext::setDrawLuminanceMask`. -/
def setDrawLuminanceMask (c : GraphicsContext) (b : Bool) : GraphicsContext :=
  let c1 := { c with m_state := { c.m_state with drawLuminanceMask := b } }
  c1.notify Change.DrawLuminanceMaskChange none

end GraphicsContext

/-- One call of a state setter of `GraphicsContext`, with its arguments. -/
inductive Setter where
  | setStrokeThickness (thickness : FloatValue)
  | setStrokeStyle (style : StrokeStyle)
  | setStrokeColor (color : Color)
  | setShadow (offset : FloatSize) (blur : FloatValue) (color : Color)
  | setLegacyShadow (offset : FloatSize) (blur : FloatValue) (color : Color)
  | clearShadow
  | setFillColor (color : Color)
  | setShadowsIgnoreTransforms (b : Bool)
  | setShouldAntialias (b : Bool)
  | setShouldSmoothFonts (b : Bool)
  | setShouldSubpixelQuantizeFonts (b : Bool)
  | setImageInterpolationQuality (q : InterpolationQuality)
  | setStrokePattern (pattern : PatternRef)
  | setFillPattern (pattern : PatternRef)
  | setStrokeGradient (gradient : GradientRef) (transform : AffineTransform)
  | setFillRule (fillRule : WindRule)
  | setFillGradient (gradient : GradientRef) (transform : AffineTransform)
  | setTextDrawingMode (mode : TextDrawingModeFlags)
  | setAlpha (alpha : FloatValue)
  | setCompositeOperation (op : CompositeOperator) (blendMode : BlendMode)
  | setDrawLuminanceMask (b : Bool)
  deriving DecidableEq

/-- Run one setter call on a context. -/
def Setter.apply : Setter → GraphicsContext → GraphicsContext
  | .setStrokeThickness t, c => c.setStrokeThickness t
  | .setStrokeStyle s, c => c.setStrokeStyle s
  | .setStrokeColor col, c => c.setStrokeColor col
  | .setShadow o b col, c => c.setShadow o b col
  | .setLegacyShadow o b col, c => c.setLegacyShadow o b col
  | .clearShadow, c => c.clearShadow
  | .setFillColor col, c => c.setFillColor col
  | .setShadowsIgnoreTransforms b, c => c.setShadowsIgnoreTransforms b
  | .setShouldAntialias b, c => c.setShouldAntialias b
  | .setShouldSmoothFonts b, c => c.setShouldSmoothFonts b
  | .setShouldSubpixelQuantizeFonts b, c => c.setShouldSubpixelQuantizeFonts b
  | .setImageInterpolationQuality q, c => c.setImageInterpolationQuality q
  | .setStrokePattern p, c => c.setStrokePattern p
  | .setFillPattern p, c => c.setFillPattern p
  | .setStrokeGradient g t, c => c.setStrokeGradient g t
  | .setFillRule r, c => c.setFillRule r
  | .setFillGradient g t, c => c.setFillGradient g t
  | .setTextDrawingMode m, c => c.setTextDrawingMode m
  | .setAlpha a, c => c.setAlpha a
  | .setCompositeOperation op bm, c => c.setCompositeOperation op bm
  | .setDrawLuminanceMask b, c => c.setDrawLuminanceMask b

/-- A call made by a client of `GraphicsContext`: `save`, `restore` or a setter. -/
inductive Op where
  | save
  | restore
  | set (s : Setter)
  deriving DecidableEq

/-- Run one client call. -/
def Op.apply : Op → GraphicsContext → GraphicsContext
  | .save, c => c.save
  | .restore, c => c.restore
  | .set s, c => s.apply c

/-- Run a sequence of client calls, first call first. -/
def runOps (ops : List Op) (c : GraphicsContext) : GraphicsContext :=
  ops.foldl (fun acc op => op.apply acc) c

/-- Sequences of setter calls and properly nested `save`/`restore` pairs. -/
inductive Nested : List Op → Prop where
  | nil : Nested []
  | set (s : Setter) {rest : List Op} : Nested rest → Nested (Op.set s :: rest)
  | pair {inner rest : List Op} :
      Nested inner → Nested rest → Nested (Op.save :: (inner ++ Op.restore :: rest))

/-- A concrete state used to evaluate the embedding on examples. -/
def exampleState : GraphicsContextState where
  strokeGradient := none
  strokePattern := none
  fillGradient := none
  fillPattern := none
  strokeGradientSpaceTransform := []
  fillGradientSpaceTransform := []
  shadowOffset := ⟨.finite 0, .finite 0⟩
  shadowBlur := .finite 0
  shadowColor := Color.invalid
  strokeThickness := .finite 0
  textDrawingMode := 1
  strokeColor := Color.rgba 255
  fillColor := Color.rgba 255
  strokeStyle := StrokeStyle.SolidStroke
  fillRule := WindRule.NonZero
  alpha := .finite 1
  compositeOperator := 0
  blendMode := 0
  imageInterpolationQuality := 0
  shouldAntialias := true
  shouldSmoothFonts := true
  shouldSubpixelQuantizeFonts := true
  shadowsIgnoreTransforms := false
  drawLuminanceMask := false

/-- A concrete context with painting enabled, a platform context and an empty stack. -/
def exampleContext : GraphicsContext where
  m_state := exampleState
  m_stack := []
  m_impl := false
  paintingDisabled := false
  calls := []

/-- A client call sequence with one setter and one nested `save`/`restore` pair. -/
def exampleOps : List Op :=
  [Op.set (Setter.setAlpha (.finite (1 / 2))), Op.save, Op.set (Setter.setStrokeColor Color.invalid),
    Op.restore]

/-! ## RSA-PSS signing and verification through OpenSSL -/

/-- The two members of `ExceptionCode` used by `CryptoAlgorithmRSA_PSSOpenSSL.cpp`. -/
inductive ExceptionCode where
  | NotSupportedError
  | OperationError
  deriving DecidableEq, Repr

/-- The result type `ExceptionOr<T>`. -/
abbrev ExceptionOr (α : Type) := Except ExceptionCode α

/-- One element of a `Vector<uint8_t>`. -/
abbrev Byte := Fin 256

/-- The OpenSSL constant `RSA_PKCS1_PSS_PADDING`. -/
def RSA_PKCS1_PSS_PADDING : Int := 6

/-- The library calls made by `platformSign` and `platformVerify`, as functions that may
succeed or fail. `MD` stands for `const EVP_MD*` (non-null), `PKey` for the platform key,
`Ctx` for the state of an `EVP_PKEY_CTX`, `HashId` for `CryptoAlgorithmIdentifier`.
A call that takes the context returns its `int` result together with the context it leaves
behind. `EVP_PKEY_sign_null` is `EVP_PKEY_sign` called with a null signature pointer: it
reports a length only. `EVP_PKEY_sign` is given the capacity of the signature buffer and
returns the buffer as written and the length it reports. -/
structure OpenSSL (MD PKey Ctx HashId : Type) where
  digestAlgorithm : HashId → Option MD
  calculateDigest : MD → List Byte → Option (List Byte)
  EVP_PKEY_CTX_new : PKey → Option Ctx
  EVP_PKEY_sign_init : Ctx → Int × Ctx
  EVP_PKEY_verify_init : Ctx → Int × Ctx
  EVP_PKEY_CTX_set_rsa_padding : Ctx → Int → Int × Ctx
  EVP_PKEY_CTX_set_rsa_pss_saltlen : Ctx → Nat → Int × Ctx
  EVP_PKEY_CTX_set_signature_md : Ctx → MD → Int × Ctx
  EVP_PKEY_CTX_set_rsa_mgf1_md : Ctx → MD → Int × Ctx
  EVP_PKEY_sign_null : Ctx → List Byte → Int × Nat × Ctx
  EVP_PKEY_sign : Ctx → Nat → List Byte → Int × List Byte × Nat × Ctx
  EVP_PKEY_verify : Ctx → List Byte → List Byte → Int

/-- The member of `CryptoAlgorithmRsaPssParams` read by the two functions. -/
structure CryptoAlgorithmRsaPssParams where
  saltLength : Nat

/-- The two accessors of `CryptoKeyRSA` used by the two functions. -/
structure CryptoKeyRSA (PKey HashId : Type) where
  hashAlgorithmIdentifier : HashId
  platformKey : PKey

/-- The operation `Vector::shrink`, for a new size not above the current one. -/
def shrink (v : List Byte) (size : Nat) : List Byte := v.take size

section RSA_PSS

variable {MD PKey Ctx HashId : Type}

/-- Embedding of `CryptoAlgorithmRSA_PSS::platformSign`, in a build where OpenSSL defines
`EVP_PKEY_CTX_set_rsa_pss_saltlen` and `EVP_PKEY_CTX_set_rsa_mgf1_md`. -/
def platformSign (ssl : OpenSSL MD PKey Ctx HashId) (parameters : CryptoAlgorithmRsaPssParams)
    (key : CryptoKeyRSA PKey HashId) (data : List Byte) : ExceptionOr (List Byte) :=
  match ssl.digestAlgorithm key.hashAlgorithmIdentifier with
  | none => .error .NotSupportedError
  | some md =>
    match ssl.calculateDigest md data with
    | none => .error .OperationError
    | some digest =>
      match ssl.EVP_PKEY_CTX_new key.platformKey with
      | none => .error .OperationError
      | some ctx =>
        let r1 := ssl.EVP_PKEY_sign_init ctx
        if r1.1 ≤ 0 then .error .OperationError else
        let r2 := ssl.EVP_PKEY_CTX_set_rsa_padding r1.2 RSA_PKCS1_PSS_PADDING
        if r2.1 ≤ 0 then .error .OperationError else
        let r3 := ssl.EVP_PKEY_CTX_set_rsa_pss_saltlen r2.2 parameters.saltLength
        if r3.1 ≤ 0 then .error .OperationError else
        let r4 := ssl.EVP_PKEY_CTX_set_signature_md r3.2 md
        if r4.1 ≤ 0 then .error .OperationError else
        let r5 := ssl.EVP_PKEY_CTX_set_rsa_mgf1_md r4.2 md
        if r5.1 ≤ 0 then .error .OperationError else
        let r6 := ssl.EVP_PKEY_sign_null r5.2 digest
        if r6.1 ≤ 0 then .error .OperationError else
        let r7 := ssl.EVP_PKEY_sign r6.2.2 r6.2.1 digest
        if r7.1 ≤ 0 then .error .OperationError else
        .ok (shrink r7.2.1 r7.2.2.1)

/-- Embedding of `CryptoAlgorithmRSA_PSS::platformVerify`, in a build where OpenSSL defines
`EVP_PKEY_CTX_set_rsa_pss_saltlen` and `EVP_PKEY_CTX_set_rsa_mgf1_md`. -/
def platformVerify (ssl : OpenSSL MD PKey Ctx HashId) (parameters : CryptoAlgorithmRsaPssParams)
    (key : CryptoKeyRSA PKey HashId) (signature data : List Byte) : ExceptionOr Bool :=
  match ssl.digestAlgorithm key.hashAlgorithmIdentifier with
  | none => .error .NotSupportedError
  | some md =>
    match ssl.calculateDigest md data with
    | none => .error .OperationError
    | some digest =>
      match ssl.EVP_PKEY_CTX_new key.platformKey with
      | none => .error .OperationError
      | some ctx =>
        let r1 := ssl.EVP_PKEY_verify_init ctx
        if r1.1 ≤ 0 then .error .OperationError else
        let r2 := ssl.EVP_PKEY_CTX_set_rsa_padding r1.2 RSA_PKCS1_PSS_PADDING
        if r2.1 ≤ 0 then .error .OperationError else
        let r3 := ssl.EVP_PKEY_CTX_set_rsa_pss_saltlen r2.2 parameters.saltLength
        if r3.1 ≤ 0 then .error .OperationError else
        let r4 := ssl.EVP_PKEY_CTX_set_signature_md r3.2 md
        if r4.1 ≤ 0 then .error .OperationError else
        let r5 := ssl.EVP_PKEY_CTX_set_rsa_mgf1_md r4.2 md
        if r5.1 ≤ 0 then .error .OperationError else
        let ret := ssl.EVP_PKEY_verify r5.2 signature digest
        .ok (decide (ret = 1))

/-- Every step up to and including the MGF1 digest succeeds: the digest algorithm `md`
exists, the digest of `data` is `digest`, the context is created, `init` (one of
`EVP_PKEY_sign_init`, `EVP_PKEY_verify_init`) and the four parameter calls all return a
positive value, and `ctx` is the context the last of them leaves behind. -/
def SetupSucceeds (ssl : OpenSSL MD PKey Ctx HashId) (init : Ctx → Int × Ctx)
    (parameters : CryptoAlgorithmRsaPssParams) (key : CryptoKeyRSA PKey HashId)
    (data : List Byte) (md : MD) (digest : List Byte) (ctx : Ctx) : Prop :=
  ssl.digestAlgorithm key.hashAlgorithmIdentifier = some md ∧
  ssl.calculateDigest md data = some digest ∧
  ∃ c0 c1 c2 c3 c4 : Ctx, ∃ n1 n2 n3 n4 n5 : Int,
    ssl.EVP_PKEY_CTX_new key.platformKey = some c0 ∧
    init c0 = (n1, c1) ∧ 0 < n1 ∧
    ssl.EVP_PKEY_CTX_set_rsa_padding c1 RSA_PKCS1_PSS_PADDING = (n2, c2) ∧ 0 < n2 ∧
    ssl.EVP_PKEY_CTX_set_rsa_pss_saltlen c2 parameters.saltLength = (n3, c3) ∧ 0 < n3 ∧
    ssl.EVP_PKEY_CTX_set_signature_md c3 md = (n4, c4) ∧ 0 < n4 ∧
    ssl.EVP_PKEY_CTX_set_rsa_mgf1_md c4 md = (n5, ctx) ∧ 0 < n5

/-- Every step of signing succeeds and the second `EVP_PKEY_sign` call writes `buffer` and
reports `len`. -/
def SignSucceeds (ssl : OpenSSL MD PKey Ctx HashId) (parameters : CryptoAlgorithmRsaPssParams)
    (key : CryptoKeyRSA PKey HashId) (data : List Byte) (buffer : List Byte) (len : Nat) :
    Prop :=
  ∃ (md : MD) (digest : List Byte) (c5 c6 c7 : Ctx) (n6 n7 : Int) (cap : Nat),
    SetupSucceeds ssl ssl.EVP_PKEY_sign_init parameters key data md digest c5 ∧
    ssl.EVP_PKEY_sign_null c5 digest = (n6, cap, c6) ∧ 0 < n6 ∧
    ssl.EVP_PKEY_sign c6 cap digest = (n7, buffer, len, c7) ∧ 0 < n7

end RSA_PSS

/-- A toy library used to evaluate the embedding on examples: the only hash known is `0`,
the digest keeps the first byte of the data, every context call succeeds and counts the
calls made, the signature is the digest followed by a padding byte of which one byte is
reported, and verification accepts exactly the one-byte signature equal to the digest. -/
def exampleOpenSSL : OpenSSL Unit Unit Nat Nat where
  digestAlgorithm := fun h => if h = 0 then some () else none
  calculateDigest := fun _ data => some (data.take 1)
  EVP_PKEY_CTX_new := fun _ => some 0
  EVP_PKEY_sign_init := fun c => (1, c + 1)
  EVP_PKEY_verify_init := fun c => (1, c + 1)
  EVP_PKEY_CTX_set_rsa_padding := fun c _ => (1, c + 1)
  EVP_PKEY_CTX_set_rsa_pss_saltlen := fun c _ => (1, c + 1)
  EVP_PKEY_CTX_set_signature_md := fun c _ => (1, c + 1)
  EVP_PKEY_CTX_set_rsa_mgf1_md := fun c _ => (1, c + 1)
  EVP_PKEY_sign_null := fun c _ => (1, 2, c + 1)
  EVP_PKEY_sign := fun c _ digest => (1, digest ++ [0], 1, c + 1)
  EVP_PKEY_verify := fun _ signature digest => if signature = digest then 1 else 0

/-! ## Accessibility objects: ancestor search -/

section Ancestors

variable {α : Type}

/-- The `for` loop of `Accessibility::findAncestor`, started at `parent`. Objects are object
identities, `parentObject` is the virtual accessor of that name (`none` is the null pointer)
and `fuel` bounds the number of iterations; the outer `none` means that the bound was
reached before the loop ended. -/
def findAncestorLoop (parentObject : α → Option α) (matchesFn : α → Bool) :
    Nat → Option α → Option (Option α)
  | _, none => some none
  | 0, some _ => none
  | fuel + 1, some parent =>
    if matchesFn parent then some (some parent)
    else findAncestorLoop parentObject matchesFn fuel (parentObject parent)

/-- Embedding of `Accessibility::findAncestor<T>`; `isT` is the dynamic type test `is<T>`
on a non-null pointer (a null pointer fails the test). -/
def findAncestor (parentObject : α → Option α) (isT : α → Bool) (fuel : Nat) (object : α)
    (includeSelf : Bool) (matchesFn : α → Bool) : Option (Option α) :=
  if includeSelf then findAncestorLoop parentObject matchesFn fuel (some object)
  else
    match parentObject object with
    | none => some none
    | some parentPtr =>
      if !isT parentPtr then some none
      else findAncestorLoop parentObject matchesFn fuel (some parentPtr)

/-- Embedding of `AXCoreObject::isDescendantOfObject`, called on `self` with argument
`axObject`; here `T` is `AXCoreObject`, so the type test holds for every object. -/
def isDescendantOfObject [DecidableEq α] (parentObject : α → Option α) (fuel : Nat) (self : α)
    (axObject : Option α) : Option Bool :=
  match axObject with
  | none => some false
  | some ax =>
    (findAncestor parentObject (fun _ => true) fuel self false
      (fun object => decide (object = ax))).map Option.isSome

/-- Embedding of `AXCoreObject::isAncestorOfObject`, called on `self` with argument
`axObject`. -/
def isAncestorOfObject [DecidableEq α] (parentObject : α → Option α) (fuel : Nat) (self : α)
    (axObject : Option α) : Option Bool :=
  match axObject with
  | none => some false
  | some ax =>
    if self = ax then some true
    else isDescendantOfObject parentObject fuel ax (some self)

/-- The list `chain` is the whole parent chain of `object`: its parent, the parent of its
parent, and so on up to an object without parent. An object has such a list exactly when
its parent chain is finite. -/
inductive ParentChain (parentObject : α → Option α) : α → List α → Prop where
  | root {object : α} : parentObject object = none → ParentChain parentObject object []
  | step {object parent : α} {chain : List α} :
      parentObject object = some parent → ParentChain parentObject parent chain →
      ParentChain parentObject object (parent :: chain)

/-- The object reached from `object` by `n` applications of `parentObject`, if any. -/
def nthParent (parentObject : α → Option α) : Nat → α → Option α
  | 0, object => some object
  | n + 1, object => (parentObject object).bind (nthParent parentObject n)

end Ancestors

/-- A four-object tree used in examples: `0` is the root, `1` its child, `2` and `3` the
children of `1`. -/
def exampleParent : Nat → Option Nat
  | 0 => none
  | 1 => some 0
  | 2 => some 1
  | 3 => some 1
  | _ => none

/-! ## Accessibility roles -/

/-- The enumeration `AccessibilityRole`, in declaration order (`Application` has the
value 1 and each later enumerator the next value). -/
inductive AccessibilityRole where
  | Application
  | ApplicationAlert
  | ApplicationAlertDialog
  | ApplicationDialog
  | ApplicationGroup
  | ApplicationLog
  | ApplicationMarquee
  | ApplicationStatus
  | ApplicationTextGroup
  | ApplicationTimer
  | Audio
  | Blockquote
  | Button
  | Canvas
  | Caption
  | Cell
  | Checkbox
  | Code
  | ColorWell
  | Column
  | ColumnHeader
  | ComboBox
  | DateTime
  | Definition
  | Deletion
  | DescriptionList
  | DescriptionListDetail
  | DescriptionListTerm
  | Details
  | Directory
  | Document
  | DocumentArticle
  | DocumentMath
  | DocumentNote
  | Feed
  | Figure
  | Footer
  | Footnote
  | Form
  | Generic
  | GraphicsDocument
  | GraphicsObject
  | GraphicsSymbol
  | Grid
  | GridCell
  | Group
  | Heading
  | HorizontalRule
  | Ignored
  | Inline
  | Image
  | ImageMap
  | ImageMapLink
  | Incrementor
  | Insertion
  | Label
  | LandmarkBanner
  | LandmarkComplementary
  | LandmarkContentInfo
  | LandmarkDocRegion
  | LandmarkMain
  | LandmarkNavigation
  | LandmarkRegion
  | LandmarkSearch
  | Legend
  | LineBreak
  | Link
  | List
  | ListBox
  | ListBoxOption
  | ListItem
  | ListMarker
  | Mark
  | MathElement
  | Menu
  | MenuBar
  | MenuButton
  | MenuItem
  | MenuItemCheckbox
  | MenuItemRadio
  | MenuListPopup
  | MenuListOption
  | Meter
  | Model
  | Paragraph
  | PopUpButton
  | Pre
  | Presentational
  | ProgressIndicator
  | RadioButton
  | RadioGroup
  | RowHeader
  | Row
  | RowGroup
  | RubyBase
  | RubyBlock
  | RubyInline
  | RubyRun
  | RubyText
  | ScrollArea
  | ScrollBar
  | SearchField
  | Slider
  | SliderThumb
  | SpinButton
  | SpinButtonPart
  | Splitter
  | StaticText
  | Subscript
  | Suggestion
  | Summary
  | Superscript
  | Switch
  | SVGRoot
  | SVGText
  | SVGTSpan
  | SVGTextPath
  | TabGroup
  | TabList
  | TabPanel
  | Tab
  | Table
  | TableHeaderContainer
  | Term
  | TextArea
  | TextField
  | TextGroup
  | Time
  | Tree
  | TreeGrid
  | TreeItem
  | ToggleButton
  | Toolbar
  | Unknown
  | UserInterfaceTooltip
  | Video
  | WebApplication
  | WebArea
  | WebCoreLink
  deriving DecidableEq, Repr

/-- The identifier of each enumerator as written in the declaration of
`AccessibilityRole`. -/
def AccessibilityRole.identifier : AccessibilityRole → String
  | .Application => "Application"
  | .ApplicationAlert => "ApplicationAlert"
  | .ApplicationAlertDialog => "ApplicationAlertDialog"
  | .ApplicationDialog => "ApplicationDialog"
  | .ApplicationGroup => "ApplicationGroup"
  | .ApplicationLog => "ApplicationLog"
  | .ApplicationMarquee => "ApplicationMarquee"
  | .ApplicationStatus => "ApplicationStatus"
  | .ApplicationTextGroup => "ApplicationTextGroup"
  | .ApplicationTimer => "ApplicationTimer"
  | .Audio => "Audio"
  | .Blockquote => "Blockquote"
  | .Button => "Button"
  | .Canvas => "Canvas"
  | .Caption => "Caption"
  | .Cell => "Cell"
  | .Checkbox => "Checkbox"
  | .Code => "Code"
  | .ColorWell => "ColorWell"
  | .Column => "Column"
  | .ColumnHeader => "ColumnHeader"
  | .ComboBox => "ComboBox"
  | .DateTime => "DateTime"
  | .Definition => "Definition"
  | .Deletion => "Deletion"
  | .DescriptionList => "DescriptionList"
  | .DescriptionListDetail => "DescriptionListDetail"
  | .DescriptionListTerm => "DescriptionListTerm"
  | .Details => "Details"
  | .Directory => "Directory"
  | .Document => "Document"
  | .DocumentArticle => "DocumentArticle"
  | .DocumentMath => "DocumentMath"
  | .DocumentNote => "DocumentNote"
  | .Feed => "Feed"
  | .Figure => "Figure"
  | .Footer => "Footer"
  | .Footnote => "Footnote"
  | .Form => "Form"
  | .Generic => "Generic"
  | .GraphicsDocument => "GraphicsDocument"
  | .GraphicsObject => "GraphicsObject"
  | .GraphicsSymbol => "GraphicsSymbol"
  | .Grid => "Grid"
  | .GridCell => "GridCell"
  | .Group => "Group"
  | .Heading => "Heading"
  | .HorizontalRule => "HorizontalRule"
  | .Ignored => "Ignored"
  | .Inline => "Inline"
  | .Image => "Image"
  | .ImageMap => "ImageMap"
  | .ImageMapLink => "ImageMapLink"
  | .Incrementor => "Incrementor"
  | .Insertion => "Insertion"
  | .Label => "Label"
  | .LandmarkBanner => "LandmarkBanner"
  | .LandmarkComplementary => "LandmarkComplementary"
  | .LandmarkContentInfo => "LandmarkContentInfo"
  | .LandmarkDocRegion => "LandmarkDocRegion"
  | .LandmarkMain => "LandmarkMain"
  | .LandmarkNavigation => "LandmarkNavigation"
  | .LandmarkRegion => "LandmarkRegion"
  | .LandmarkSearch => "LandmarkSearch"
  | .Legend => "Legend"
  | .LineBreak => "LineBreak"
  | .Link => "Link"
  | .List => "List"
  | .ListBox => "ListBox"
  | .ListBoxOption => "ListBoxOption"
  | .ListItem => "ListItem"
  | .ListMarker => "ListMarker"
  | .Mark => "Mark"
  | .MathElement => "MathElement"
  | .Menu => "Menu"
  | .MenuBar => "MenuBar"
  | .MenuButton => "MenuButton"
  | .MenuItem => "MenuItem"
  | .MenuItemCheckbox => "MenuItemCheckbox"
  | .MenuItemRadio => "MenuItemRadio"
  | .MenuListPopup => "MenuListPopup"
  | .MenuListOption => "MenuListOption"
  | .Meter => "Meter"
  | .Model => "Model"
  | .Paragraph => "Paragraph"
  | .PopUpButton => "PopUpButton"
  | .Pre => "Pre"
  | .Presentational => "Presentational"
  | .ProgressIndicator => "ProgressIndicator"
  | .RadioButton => "RadioButton"
  | .RadioGroup => "RadioGroup"
  | .RowHeader => "RowHeader"
  | .Row => "Row"
  | .RowGroup => "RowGroup"
  | .RubyBase => "RubyBase"
  | .RubyBlock => "RubyBlock"
  | .RubyInline => "RubyInline"
  | .RubyRun => "RubyRun"
  | .RubyText => "RubyText"
  | .ScrollArea => "ScrollArea"
  | .ScrollBar => "ScrollBar"
  | .SearchField => "SearchField"
  | .Slider => "Slider"
  | .SliderThumb => "SliderThumb"
  | .SpinButton => "SpinButton"
  | .SpinButtonPart => "SpinButtonPart"
  | .Splitter => "Splitter"
  | .StaticText => "StaticText"
  | .Subscript => "Subscript"
  | .Suggestion => "Suggestion"
  | .Summary => "Summary"
  | .Superscript => "Superscript"
  | .Switch => "Switch"
  | .SVGRoot => "SVGRoot"
  | .SVGText => "SVGText"
  | .SVGTSpan => "SVGTSpan"
  | .SVGTextPath => "SVGTextPath"
  | .TabGroup => "TabGroup"
  | .TabList => "TabList"
  | .TabPanel => "TabPanel"
  | .Tab => "Tab"
  | .Table => "Table"
  | .TableHeaderContainer => "TableHeaderContainer"
  | .Term => "Term"
  | .TextArea => "TextArea"
  | .TextField => "TextField"
  | .TextGroup => "TextGroup"
  | .Time => "Time"
  | .Tree => "Tree"
  | .TreeGrid => "TreeGrid"
  | .TreeItem => "TreeItem"
  | .ToggleButton => "ToggleButton"
  | .Toolbar => "Toolbar"
  | .Unknown => "Unknown"
  | .UserInterfaceTooltip => "UserInterfaceTooltip"
  | .Video => "Video"
  | .WebApplication => "WebApplication"
  | .WebArea => "WebArea"
  | .WebCoreLink => "WebCoreLink"

/-- Embedding of `accessibilityRoleToString`: one `case` per line of the `switch`, in the
order of the source. The fall-through after the `switch` returns the empty string and is
not reachable from a value of the enumeration type. -/
def accessibilityRoleToString : AccessibilityRole → String
  | .Application => "Application"
  | .ApplicationAlert => "ApplicationAlert"
  | .ApplicationAlertDialog => "ApplicationAlertDialog"
  | .ApplicationDialog => "ApplicationDialog"
  | .ApplicationGroup => "ApplicationGroup"
  | .ApplicationLog => "ApplicationLog"
  | .ApplicationMarquee => "ApplicationMarquee"
  | .ApplicationStatus => "ApplicationStatus"
  | .ApplicationTextGroup => "ApplicationTextGroup"
  | .ApplicationTimer => "ApplicationTimer"
  | .Audio => "Audio"
  | .Blockquote => "Blockquote"
  | .Button => "Button"
  | .Canvas => "Canvas"
  | .Caption => "Caption"
  | .Cell => "Cell"
  | .Checkbox => "Checkbox"
  | .Code => "Code"
  | .ColorWell => "ColorWell"
  | .Column => "Column"
  | .ColumnHeader => "ColumnHeader"
  | .ComboBox => "ComboBox"
  | .DateTime => "DateTime"
  | .Definition => "Definition"
  | .Deletion => "Deletion"
  | .DescriptionList => "DescriptionList"
  | .DescriptionListTerm => "DescriptionListTerm"
  | .DescriptionListDetail => "DescriptionListDetail"
  | .Details => "Details"
  | .Directory => "Directory"
  | .Document => "Document"
  | .DocumentArticle => "DocumentArticle"
  | .DocumentMath => "DocumentMath"
  | .DocumentNote => "DocumentNote"
  | .Feed => "Feed"
  | .Figure => "Figure"
  | .Footer => "Footer"
  | .Footnote => "Footnote"
  | .Form => "Form"
  | .Generic => "Generic"
  | .GraphicsDocument => "GraphicsDocument"
  | .GraphicsObject => "GraphicsObject"
  | .GraphicsSymbol => "GraphicsSymbol"
  | .Grid => "Grid"
  | .GridCell => "GridCell"
  | .Group => "Group"
  | .Heading => "Heading"
  | .HorizontalRule => "HorizontalRule"
  | .Ignored => "Ignored"
  | .Inline => "Inline"
  | .Image => "Image"
  | .ImageMap => "ImageMap"
  | .ImageMapLink => "ImageMapLink"
  | .Incrementor => "Incrementor"
  | .Insertion => "Insertion"
  | .Label => "Label"
  | .LandmarkBanner => "LandmarkBanner"
  | .LandmarkComplementary => "LandmarkComplementary"
  | .LandmarkContentInfo => "LandmarkContentInfo"
  | .LandmarkDocRegion => "LandmarkDocRegion"
  | .LandmarkMain => "LandmarkMain"
  | .LandmarkNavigation => "LandmarkNavigation"
  | .LandmarkRegion => "LandmarkRegion"
  | .LandmarkSearch => "LandmarkSearch"
  | .Legend => "Legend"
  | .Link => "Link"
  | .LineBreak => "LineBreak"
  | .List => "List"
  | .ListBox => "ListBox"
  | .ListBoxOption => "ListBoxOption"
  | .ListItem => "ListItem"
  | .ListMarker => "ListMarker"
  | .Mark => "Mark"
  | .MathElement => "MathElement"
  | .Menu => "Menu"
  | .MenuBar => "MenuBar"
  | .MenuButton => "MenuButton"
  | .MenuItem => "MenuItem"
  | .MenuItemCheckbox => "MenuItemCheckbox"
  | .MenuItemRadio => "MenuItemRadio"
  | .MenuListPopup => "MenuListPopup"
  | .MenuListOption => "MenuListOption"
  | .Meter => "Meter"
  | .Model => "Model"
  | .Paragraph => "Paragraph"
  | .PopUpButton => "PopUpButton"
  | .Pre => "Pre"
  | .Presentational => "Presentational"
  | .ProgressIndicator => "ProgressIndicator"
  | .RadioButton => "RadioButton"
  | .RadioGroup => "RadioGroup"
  | .RowHeader => "RowHeader"
  | .Row => "Row"
  | .RowGroup => "RowGroup"
  | .RubyBase => "RubyBase"
  | .RubyBlock => "RubyBlock"
  | .RubyInline => "RubyInline"
  | .RubyRun => "RubyRun"
  | .RubyText => "RubyText"
  | .ScrollArea => "ScrollArea"
  | .ScrollBar => "ScrollBar"
  | .SearchField => "SearchField"
  | .Slider => "Slider"
  | .SliderThumb => "SliderThumb"
  | .SpinButton => "SpinButton"
  | .SpinButtonPart => "SpinButtonPart"
  | .Splitter => "Splitter"
  | .StaticText => "StaticText"
  | .Subscript => "Subscript"
  | .Suggestion => "Suggestion"
  | .Summary => "Summary"
  | .Superscript => "Superscript"
  | .Switch => "Switch"
  | .SVGRoot => "SVGRoot"
  | .SVGText => "SVGText"
  | .SVGTSpan => "SVGTSpan"
  | .SVGTextPath => "SVGTextPath"
  | .TabGroup => "TabGroup"
  | .TabList => "TabList"
  | .TabPanel => "TabPanel"
  | .Tab => "Tab"
  | .Table => "Table"
  | .TableHeaderContainer => "TableHeaderContainer"
  | .Term => "Term"
  | .TextArea => "TextArea"
  | .TextField => "TextField"
  | .TextGroup => "TextGroup"
  | .Time => "Time"
  | .Tree => "Tree"
  | .TreeGrid => "TreeGrid"
  | .TreeItem => "TreeItem"
  | .ToggleButton => "ToggleButton"
  | .Toolbar => "Toolbar"
  | .Unknown => "Unknown"
  | .UserInterfaceTooltip => "UserInterfaceTooltip"
  | .Video => "Video"
  | .WebApplication => "WebApplication"
  | .WebArea => "WebArea"
  | .WebCoreLink => "WebCoreLink"

/-- Every enumerator of `AccessibilityRole`, in declaration order. -/
def allAccessibilityRoles : List AccessibilityRole :=
  [AccessibilityRole.Application, AccessibilityRole.ApplicationAlert,
    AccessibilityRole.ApplicationAlertDialog, AccessibilityRole.ApplicationDialog,
    AccessibilityRole.ApplicationGroup, AccessibilityRole.ApplicationLog,
    AccessibilityRole.ApplicationMarquee, AccessibilityRole.ApplicationStatus,
    AccessibilityRole.ApplicationTextGroup, AccessibilityRole.ApplicationTimer,
    AccessibilityRole.Audio, AccessibilityRole.Blockquote, AccessibilityRole.Button,
    AccessibilityRole.Canvas, AccessibilityRole.Caption, AccessibilityRole.Cell,
    AccessibilityRole.Checkbox, AccessibilityRole.Code, AccessibilityRole.ColorWell,
    AccessibilityRole.Column, AccessibilityRole.ColumnHeader, AccessibilityRole.ComboBox,
    AccessibilityRole.DateTime, AccessibilityRole.Definition, AccessibilityRole.Deletion,
    AccessibilityRole.DescriptionList, AccessibilityRole.DescriptionListDetail,
    AccessibilityRole.DescriptionListTerm, AccessibilityRole.Details,
    AccessibilityRole.Directory, AccessibilityRole.Document, AccessibilityRole.DocumentArticle,
    AccessibilityRole.DocumentMath, AccessibilityRole.DocumentNote, AccessibilityRole.Feed,
    AccessibilityRole.Figure, AccessibilityRole.Footer, AccessibilityRole.Footnote,
    AccessibilityRole.Form, AccessibilityRole.Generic, AccessibilityRole.GraphicsDocument,
    AccessibilityRole.GraphicsObject, AccessibilityRole.GraphicsSymbol, AccessibilityRole.Grid,
    AccessibilityRole.GridCell, AccessibilityRole.Group, AccessibilityRole.Heading,
    AccessibilityRole.HorizontalRule, AccessibilityRole.Ignored, AccessibilityRole.Inline,
    AccessibilityRole.Image, AccessibilityRole.ImageMap, AccessibilityRole.ImageMapLink,
    AccessibilityRole.Incrementor, AccessibilityRole.Insertion, AccessibilityRole.Label,
    AccessibilityRole.LandmarkBanner, AccessibilityRole.LandmarkComplementary,
    AccessibilityRole.LandmarkContentInfo, AccessibilityRole.LandmarkDocRegion,
    AccessibilityRole.LandmarkMain, AccessibilityRole.LandmarkNavigation,
    AccessibilityRole.LandmarkRegion, AccessibilityRole.LandmarkSearch, AccessibilityRole.Legend,
    AccessibilityRole.LineBreak, AccessibilityRole.Link, AccessibilityRole.List,
    AccessibilityRole.ListBox, AccessibilityRole.ListBoxOption, AccessibilityRole.ListItem,
    AccessibilityRole.ListMarker, AccessibilityRole.Mark, AccessibilityRole.MathElement,
    AccessibilityRole.Menu, AccessibilityRole.MenuBar, AccessibilityRole.MenuButton,
    AccessibilityRole.MenuItem, AccessibilityRole.MenuItemCheckbox,
    AccessibilityRole.MenuItemRadio, AccessibilityRole.MenuListPopup,
    AccessibilityRole.MenuListOption, AccessibilityRole.Meter, AccessibilityRole.Model,
    AccessibilityRole.Paragraph, AccessibilityRole.PopUpButton, AccessibilityRole.Pre,
    AccessibilityRole.Presentational, AccessibilityRole.ProgressIndicator,
    AccessibilityRole.RadioButton, AccessibilityRole.RadioGroup, AccessibilityRole.RowHeader,
    AccessibilityRole.Row, AccessibilityRole.RowGroup, AccessibilityRole.RubyBase,
    AccessibilityRole.RubyBlock, AccessibilityRole.RubyInline, AccessibilityRole.RubyRun,
    AccessibilityRole.RubyText, AccessibilityRole.ScrollArea, AccessibilityRole.ScrollBar,
    AccessibilityRole.SearchField, AccessibilityRole.Slider, AccessibilityRole.SliderThumb,
    AccessibilityRole.SpinButton, AccessibilityRole.SpinButtonPart, AccessibilityRole.Splitter,
    AccessibilityRole.StaticText, AccessibilityRole.Subscript, AccessibilityRole.Suggestion,
    AccessibilityRole.Summary, AccessibilityRole.Superscript, AccessibilityRole.Switch,
    AccessibilityRole.SVGRoot, AccessibilityRole.SVGText, AccessibilityRole.SVGTSpan,
    AccessibilityRole.SVGTextPath, AccessibilityRole.TabGroup, AccessibilityRole.TabList,
    AccessibilityRole.TabPanel, AccessibilityRole.Tab, AccessibilityRole.Table,
    AccessibilityRole.TableHeaderContainer, AccessibilityRole.Term, AccessibilityRole.TextArea,
    AccessibilityRole.TextField, AccessibilityRole.TextGroup, AccessibilityRole.Time,
    AccessibilityRole.Tree, AccessibilityRole.TreeGrid, AccessibilityRole.TreeItem,
    AccessibilityRole.ToggleButton, AccessibilityRole.Toolbar, AccessibilityRole.Unknown,
    AccessibilityRole.UserInterfaceTooltip, AccessibilityRole.Video,
    AccessibilityRole.WebApplication, AccessibilityRole.WebArea, AccessibilityRole.WebCoreLink]

/-- The first role, in declaration order, that `accessibilityRoleToString` maps to `s`. -/
def roleOfString (s : String) : Option AccessibilityRole :=
  allAccessibilityRoles.find? (fun r => decide (accessibilityRoleToString r = s))


/-! ## Accessibility objects: live regions and spin buttons -/

/-- A `String` or `AtomString` of WTF: `none` is the null string, `some cs` a string with the
characters `cs`. -/
abbrev WTFString := Option (List Char)

/-- The accessor `String::isEmpty`: a null string is empty. -/
def WTFString.isEmpty : WTFString → Bool
  | none => true
  | some cs => cs.isEmpty

/-- Lower-case form of an ASCII upper-case letter; every other character is kept. -/
def toASCIILower (c : Char) : Char :=
  if 'A' ≤ c ∧ c ≤ 'Z' then Char.ofNat (c.toNat + 32) else c

/-- Modelled from the spec: `equalLettersIgnoringASCIICase` is a WTF helper defined outside
the files embedded here. It compares a string with a literal of lower-case letters, ignoring ASCII
case; a null string equals no literal. -/
def equalLettersIgnoringASCIICase (string : WTFString) (lowercaseLetters : String) : Bool :=
  match string with
  | none => false
  | some cs => decide (cs.map toASCIILower = lowercaseLetters.toList)

/-- Two characters are the same up to ASCII case: they are equal, or one of them is an
upper-case ASCII letter (code points 65 to 90, `A` to `Z`) and the other one is the
lower-case form of that letter, whose code point is larger by 32. -/
def SameLetterIgnoringASCIICase (x y : Char) : Prop :=
  x = y ∨ (65 ≤ x.toNat ∧ x.toNat ≤ 90 ∧ y.toNat = x.toNat + 32) ∨
    (65 ≤ y.toNat ∧ y.toNat ≤ 90 ∧ x.toNat = y.toNat + 32)

/-- Two character sequences are equal ignoring ASCII case: they have the same length and
are position by position the same character up to ASCII case. -/
def EqualIgnoringASCIICase (a b : List Char) : Prop :=
  List.Forall₂ SameLetterIgnoringASCIICase a b

/-- Embedding of `AXCoreObject::liveRegionStatusIsEnabled`. -/
def liveRegionStatusIsEnabled (liveRegionStatus : WTFString) : Bool :=
  equalLettersIgnoringASCIICase liveRegionStatus "polite"
    || equalLettersIgnoringASCIICase liveRegionStatus "assertive"

/-- The enumeration `SpinButtonType`. -/
inductive SpinButtonType where
  | Standalone
  | Composite
  deriving DecidableEq, Repr

/-- The results of the virtual accessors of an `AXCoreObject` that the inline functions
below read; the two buttons are object identities, `none` for a null pointer. -/
structure AXCoreObject where
  roleValue : AccessibilityRole
  liveRegionStatus : WTFString
  incrementButton : Option Nat
  decrementButton : Option Nat

namespace AXCoreObject

/-- Embedding of `AXCoreObject::supportsLiveRegion` (the conversion to `AtomString` keeps
the characters and the null state). -/
def supportsLiveRegion (self : AXCoreObject) (excludeIfOff : Bool) : Bool :=
  let liveRegionStatusValue := self.liveRegionStatus
  if excludeIfOff then liveRegionStatusIsEnabled liveRegionStatusValue
  else !liveRegionStatusValue.isEmpty

/-- Embedding of `AXCoreObject::isSpinButton`. -/
def isSpinButton (self : AXCoreObject) : Bool :=
  decide (self.roleValue = AccessibilityRole.SpinButton)

/-- Embedding of `AXCoreObject::spinButtonType`; the assertion that the object is a spin
button is the precondition of the call and compiles to nothing in a release build. -/
def spinButtonType (self : AXCoreObject) : SpinButtonType :=
  if self.incrementButton.isSome || self.decrementButton.isSome then SpinButtonType.Composite
  else SpinButtonType.Standalone

end AXCoreObject

/-- A spin button with an increment control only, with live-region status `"off"`. -/
def exampleSpinButton : AXCoreObject where
  roleValue := AccessibilityRole.SpinButton
  liveRegionStatus := some "off".toList
  incrementButton := some 4
  decrementButton := none

/-! ## Pixel alignment of lines -/

/-- The conversion `static_cast<int>` of a float read as a rational: truncation toward zero
(values outside the range of `int` are not considered). -/
def truncateToInt (q : ℚ) : Int := Int.tdiv q.num q.den

/-- Embedding of `GraphicsContext::adjustLineToPixelBoundaries`; the two reference
parameters are returned as a pair. -/
def adjustLineToPixelBoundaries (p1 p2 : FloatPoint) (strokeWidth : ℚ)
    (penStyle : StrokeStyle) : FloatPoint × FloatPoint :=
  let inset : FloatPoint × FloatPoint :=
    if penStyle = StrokeStyle.DottedStroke ∨ penStyle = StrokeStyle.DashedStroke then
      if p1.x = p2.x then
        ({ p1 with y := p1.y + strokeWidth }, { p2 with y := p2.y - strokeWidth })
      else
        ({ p1 with x := p1.x + strokeWidth }, { p2 with x := p2.x - strokeWidth })
    else (p1, p2)
  let q1 := inset.1
  let q2 := inset.2
  if Int.tmod (truncateToInt strokeWidth) 2 ≠ 0 then
    if q1.x = q2.x then
      ({ q1 with x := q1.x + 1 / 2 }, { q2 with x := q2.x + 1 / 2 })
    else
      ({ q1 with y := q1.y + 1 / 2 }, { q2 with y := q2.y + 1 / 2 })
  else (q1, q2)

/-! ## Accumulated state changes -/

/-- The option set `GraphicsContextState::StateChangeFlags`: a set of `Change` flags. -/
abbrev StateChangeFlags := Finset Change

namespace StateChangeFlags

/-- The test `OptionSet::contains` for one flag. -/
def contains (self : StateChangeFlags) (flag : Change) : Bool := decide (flag ∈ self)

/-- The test `OptionSet::containsAny`: the two sets have a flag in common. -/
def containsAny (self other : StateChangeFlags) : Bool := decide (self ∩ other ≠ ∅)

/-- The operation `OptionSet::add` for one flag. -/
def addFlag (self : StateChangeFlags) (flag : Change) : StateChangeFlags := insert flag self

/-- The operation `OptionSet::add` for a set of flags. -/
def add (self other : StateChangeFlags) : StateChangeFlags := self ∪ other

/-- The operation `OptionSet::remove` for a set of flags. -/
def remove (self other : StateChangeFlags) : StateChangeFlags := self \ other

end StateChangeFlags

/-- The members of `GraphicsContextStateChange`. -/
structure GraphicsContextStateChange where
  m_state : GraphicsContextState
  m_changeFlags : StateChangeFlags
  deriving DecidableEq

/-- Embedding of the macro `CHECK_FOR_CHANGED_PROPERTY`: `differs` is the value of
`m_state.property != state.property`, `changeFlags` the local variable the macro adds to. -/
def CHECK_FOR_CHANGED_PROPERTY (m_changeFlags changeFlags : StateChangeFlags) (flag : Change)
    (differs : Bool) : StateChangeFlags :=
  if m_changeFlags.contains flag && differs then changeFlags.addFlag flag else changeFlags

namespace GraphicsContextStateChange

/-- Embedding of `GraphicsContextStateChange::changesFromState` (the dark-appearance check is
compiled out on this platform). The members of type `float` and the shadow offset are
compared with the float comparison, every other member with equality of values. -/
def changesFromState (self : GraphicsContextStateChange) (state : GraphicsContextState) :
    StateChangeFlags :=
  let m := self.m_changeFlags
  let changeFlags : StateChangeFlags := ∅
  let changeFlags := CHECK_FOR_CHANGED_PROPERTY m changeFlags Change.StrokeGradientChange
    (self.m_state.strokeGradient != state.strokeGradient)
  let changeFlags := CHECK_FOR_CHANGED_PROPERTY m changeFlags Change.StrokePatternChange
    (self.m_state.strokePattern != state.strokePattern)
  let changeFlags := CHECK_FOR_CHANGED_PROPERTY m changeFlags Change.FillGradientChange
    (self.m_state.fillGradient != state.fillGradient)
  let changeFlags := CHECK_FOR_CHANGED_PROPERTY m changeFlags Change.FillPatternChange
    (self.m_state.fillPattern != state.fillPattern)
  let changeFlags :=
    if m.contains Change.ShadowChange
        && (self.m_state.shadowOffset.notEqual state.shadowOffset
          || self.m_state.shadowBlur.notEqual state.shadowBlur
          || self.m_state.shadowColor != state.shadowColor) then
      changeFlags.addFlag Change.ShadowChange
    else changeFlags
  let changeFlags := CHECK_FOR_CHANGED_PROPERTY m changeFlags Change.StrokeThicknessChange
    (self.m_state.strokeThickness.notEqual state.strokeThickness)
  let changeFlags := CHECK_FOR_CHANGED_PROPERTY m changeFlags Change.TextDrawingModeChange
    (self.m_state.textDrawingMode != state.textDrawingMode)
  let changeFlags := CHECK_FOR_CHANGED_PROPERTY m changeFlags Change.StrokeColorChange
    (self.m_state.strokeColor != state.strokeColor)
  let changeFlags := CHECK_FOR_CHANGED_PROPERTY m changeFlags Change.FillColorChange
    (self.m_state.fillColor != state.fillColor)
  let changeFlags := CHECK_FOR_CHANGED_PROPERTY m changeFlags Change.StrokeStyleChange
    (self.m_state.strokeStyle != state.strokeStyle)
  let changeFlags := CHECK_FOR_CHANGED_PROPERTY m changeFlags Change.FillRuleChange
    (self.m_state.fillRule != state.fillRule)
  let changeFlags := CHECK_FOR_CHANGED_PROPERTY m changeFlags Change.AlphaChange
    (self.m_state.alpha.notEqual state.alpha)
  let changeFlags :=
    if m.containsAny {Change.CompositeOperationChange, Change.BlendModeChange}
        && (self.m_state.compositeOperator != state.compositeOperator
          || self.m_state.blendMode != state.blendMode) then
      (changeFlags.addFlag Change.CompositeOperationChange).addFlag Change.BlendModeChange
    else changeFlags
  let changeFlags := CHECK_FOR_CHANGED_PROPERTY m changeFlags Change.ShouldAntialiasChange
    (self.m_state.shouldAntialias != state.shouldAntialias)
  let changeFlags := CHECK_FOR_CHANGED_PROPERTY m changeFlags Change.ShouldSmoothFontsChange
    (self.m_state.shouldSmoothFonts != state.shouldSmoothFonts)
  let changeFlags := CHECK_FOR_CHANGED_PROPERTY m changeFlags
    Change.ShouldSubpixelQuantizeFontsChange
    (self.m_state.shouldSubpixelQuantizeFonts != state.shouldSubpixelQuantizeFonts)
  let changeFlags := CHECK_FOR_CHANGED_PROPERTY m changeFlags
    Change.ShadowsIgnoreTransformsChange
    (self.m_state.shadowsIgnoreTransforms != state.shadowsIgnoreTransforms)
  let changeFlags := CHECK_FOR_CHANGED_PROPERTY m changeFlags Change.DrawLuminanceMaskChange
    (self.m_state.drawLuminanceMask != state.drawLuminanceMask)
  let changeFlags := CHECK_FOR_CHANGED_PROPERTY m changeFlags
    Change.ImageInterpolationQualityChange
    (self.m_state.imageInterpolationQuality != state.imageInterpolationQuality)
  changeFlags

/-- Apply `update` to the stored state when `condition` holds: the shape of every
`if (flags.contains(...)) m_state.x = state.x;` statement of `accumulate`. -/
def copyWhen (self : GraphicsContextStateChange) (condition : Bool)
    (update : GraphicsContextState → GraphicsContextState) : GraphicsContextStateChange :=
  if condition then { self with m_state := update self.m_state } else self

/-- Embedding of `GraphicsContextStateChange::accumulate` (the dark-appearance copy is
compiled out on this platform). -/
def accumulate (self : GraphicsContextStateChange) (state : GraphicsContextState)
    (flags : StateChangeFlags) : GraphicsContextStateChange :=
  let strokeFlags : StateChangeFlags :=
    {Change.StrokeColorChange, Change.StrokeGradientChange, Change.StrokePatternChange}
  let c :=
    if flags.containsAny strokeFlags then
      { m_state := { self.m_state with
          strokeColor := state.strokeColor, strokeGradient := state.strokeGradient,
          strokePattern := state.strokePattern },
        m_changeFlags := self.m_changeFlags.remove strokeFlags }
    else self
  let fillFlags : StateChangeFlags :=
    {Change.FillColorChange, Change.FillGradientChange, Change.FillPatternChange}
  let c :=
    if flags.containsAny fillFlags then
      { m_state := { c.m_state with
          fillColor := state.fillColor, fillGradient := state.fillGradient,
          fillPattern := state.fillPattern },
        m_changeFlags := c.m_changeFlags.remove fillFlags }
    else c
  let c := c.copyWhen (flags.contains Change.ShadowChange) (fun s => { s with
    shadowOffset := state.shadowOffset, shadowBlur := state.shadowBlur,
    shadowColor := state.shadowColor })
  let c := c.copyWhen (flags.contains Change.StrokeThicknessChange)
    (fun s => { s with strokeThickness := state.strokeThickness })
  let c := c.copyWhen (flags.contains Change.TextDrawingModeChange)
    (fun s => { s with textDrawingMode := state.textDrawingMode })
  let c := c.copyWhen (flags.contains Change.StrokeStyleChange)
    (fun s => { s with strokeStyle := state.strokeStyle })
  let c := c.copyWhen (flags.contains Change.FillRuleChange)
    (fun s => { s with fillRule := state.fillRule })
  let c := c.copyWhen (flags.contains Change.AlphaChange)
    (fun s => { s with alpha := state.alpha })
  let c := c.copyWhen
    (flags.containsAny {Change.CompositeOperationChange, Change.BlendModeChange})
    (fun s => { s with compositeOperator := state.compositeOperator,
                       blendMode := state.blendMode })
  let c := c.copyWhen (flags.contains Change.ShouldAntialiasChange)
    (fun s => { s with shouldAntialias := state.shouldAntialias })
  let c := c.copyWhen (flags.contains Change.ShouldSmoothFontsChange)
    (fun s => { s with shouldSmoothFonts := state.shouldSmoothFonts })
  let c := c.copyWhen (flags.contains Change.ShouldSubpixelQuantizeFontsChange)
    (fun s => { s with shouldSubpixelQuantizeFonts := state.shouldSubpixelQuantizeFonts })
  let c := c.copyWhen (flags.contains Change.ShadowsIgnoreTransformsChange)
    (fun s => { s with shadowsIgnoreTransforms := state.shadowsIgnoreTransforms })
  let c := c.copyWhen (flags.contains Change.DrawLuminanceMaskChange)
    (fun s => { s with drawLuminanceMask := state.drawLuminanceMask })
  let c := c.copyWhen (flags.contains Change.ImageInterpolationQualityChange)
    (fun s => { s with imageInterpolationQuality := state.imageInterpolationQuality })
  { c with m_changeFlags := c.m_changeFlags.add flags }

end GraphicsContextStateChange

/-- All compared properties of two states are equal, as the code compares them: stroke and
fill gradient, pattern and color, shadow offset, blur and color, stroke thickness, text
drawing mode, stroke style, fill rule, alpha, composite operator, blend mode, antialiasing,
font smoothing, subpixel quantization, `shadowsIgnoreTransforms`, `drawLuminanceMask` and
image interpolation quality. For the shadow offset, the shadow blur, the stroke thickness
and alpha this is the comparison of floats, under which NaN is equal to nothing. -/
def ComparedPropertiesEqual (a b : GraphicsContextState) : Prop :=
  a.strokeGradient = b.strokeGradient ∧ a.strokePattern = b.strokePattern ∧
  a.strokeColor = b.strokeColor ∧
  a.fillGradient = b.fillGradient ∧ a.fillPattern = b.fillPattern ∧
  a.fillColor = b.fillColor ∧
  a.shadowOffset.notEqual b.shadowOffset = false ∧
  a.shadowBlur.notEqual b.shadowBlur = false ∧
  a.shadowColor = b.shadowColor ∧
  a.strokeThickness.notEqual b.strokeThickness = false ∧
  a.textDrawingMode = b.textDrawingMode ∧
  a.strokeStyle = b.strokeStyle ∧ a.fillRule = b.fillRule ∧
  a.alpha.notEqual b.alpha = false ∧
  a.compositeOperator = b.compositeOperator ∧ a.blendMode = b.blendMode ∧
  a.shouldAntialias = b.shouldAntialias ∧ a.shouldSmoothFonts = b.shouldSmoothFonts ∧
  a.shouldSubpixelQuantizeFonts = b.shouldSubpixelQuantizeFonts ∧
  a.shadowsIgnoreTransforms = b.shadowsIgnoreTransforms ∧
  a.drawLuminanceMask = b.drawLuminanceMask ∧
  a.imageInterpolationQuality = b.imageInterpolationQuality

/-- The property guarded by `flag` differs between two states, as tested by
`changesFromState`: the shadow flag guards three members, the composite-operation and
blend-mode flags both guard the composite operator and the blend mode, and members of type
`float` differ under the float comparison. -/
def propertyDiffers : Change → GraphicsContextState → GraphicsContextState → Prop
  | .StrokeGradientChange, a, b => a.strokeGradient ≠ b.strokeGradient
  | .StrokePatternChange, a, b => a.strokePattern ≠ b.strokePattern
  | .FillGradientChange, a, b => a.fillGradient ≠ b.fillGradient
  | .FillPatternChange, a, b => a.fillPattern ≠ b.fillPattern
  | .StrokeThicknessChange, a, b => a.strokeThickness.notEqual b.strokeThickness = true
  | .StrokeColorChange, a, b => a.strokeColor ≠ b.strokeColor
  | .StrokeStyleChange, a, b => a.strokeStyle ≠ b.strokeStyle
  | .FillColorChange, a, b => a.fillColor ≠ b.fillColor
  | .FillRuleChange, a, b => a.fillRule ≠ b.fillRule
  | .ShadowChange, a, b =>
    a.shadowOffset.notEqual b.shadowOffset = true ∨
      a.shadowBlur.notEqual b.shadowBlur = true ∨ a.shadowColor ≠ b.shadowColor
  | .ShadowsIgnoreTransformsChange, a, b => a.shadowsIgnoreTransforms ≠ b.shadowsIgnoreTransforms
  | .AlphaChange, a, b => a.alpha.notEqual b.alpha = true
  | .CompositeOperationChange, a, b =>
    a.compositeOperator ≠ b.compositeOperator ∨ a.blendMode ≠ b.blendMode
  | .BlendModeChange, a, b =>
    a.compositeOperator ≠ b.compositeOperator ∨ a.blendMode ≠ b.blendMode
  | .TextDrawingModeChange, a, b => a.textDrawingMode ≠ b.textDrawingMode
  | .ShouldAntialiasChange, a, b => a.shouldAntialias ≠ b.shouldAntialias
  | .ShouldSmoothFontsChange, a, b => a.shouldSmoothFonts ≠ b.shouldSmoothFonts
  | .ShouldSubpixelQuantizeFontsChange, a, b =>
    a.shouldSubpixelQuantizeFonts ≠ b.shouldSubpixelQuantizeFonts
  | .DrawLuminanceMaskChange, a, b => a.drawLuminanceMask ≠ b.drawLuminanceMask
  | .ImageInterpolationQualityChange, a, b =>
    a.imageInterpolationQuality ≠ b.imageInterpolationQuality

/-- A recorded change with no flags set, whose stored state differs from `exampleState` in
the fill rule and in the blend mode. -/
def exampleEmptyStateChange : GraphicsContextStateChange where
  m_state := { exampleState with fillRule := WindRule.EvenOdd, blendMode := 3 }
  m_changeFlags := ∅

/-- No member of type `float` that `accumulate` copies for `flag` is NaN in `s`: the shadow
offset and the shadow blur for the shadow flag, the stroke thickness and alpha for their
flags; the other flags copy no float. -/
def CopiedFloatsNotNaN : Change → GraphicsContextState → Prop
  | .ShadowChange, s =>
    s.shadowOffset.width ≠ FloatValue.nan ∧ s.shadowOffset.height ≠ FloatValue.nan ∧
      s.shadowBlur ≠ FloatValue.nan
  | .StrokeThicknessChange, s => s.strokeThickness ≠ FloatValue.nan
  | .AlphaChange, s => s.alpha ≠ FloatValue.nan
  | _, _ => True

/-- A recorded change whose stored state differs from `exampleState` in the fill rule and in
the blend mode, with the fill-rule and blend-mode flags set. -/
def exampleStateChange : GraphicsContextStateChange where
  m_state := { exampleState with fillRule := WindRule.EvenOdd, blendMode := 3 }
  m_changeFlags := {Change.FillRuleChange, Change.BlendModeChange}

end WebCore

/-! ## WGSL: the type-alias node of the abstract syntax tree -/

namespace WGSL.AST

/-- Modelled from the spec: `SourceSpan` is declared outside the files embedded here; a
span is kept as line, offset in the line, offset in the source and length. -/
structure SourceSpan where
  line : Nat
  lineOffset : Nat
  offset : Nat
  length : Nat
  deriving DecidableEq, Repr

/-- Modelled from the spec: `Identifier` is declared outside the files embedded here; an
identifier carries its own span and its text. -/
structure Identifier where
  span : SourceSpan
  id : String
  deriving DecidableEq, Repr

/-- The type `Expression::Ref`, a reference wrapper: the identity of the expression node
referred to. -/
abbrev ExpressionRef := Nat

/-- Modelled from the spec: the base class `Declaration` is declared outside the files
embedded here; its constructor takes the source span of the node. -/
structure Declaration where
  span : SourceSpan
  deriving DecidableEq, Repr

/-- The class `TypeAlias`: a `Declaration` with the members `m_name` and `m_type`. -/
structure TypeAlias extends Declaration where
  m_name : Identifier
  m_type : ExpressionRef
  deriving DecidableEq, Repr

namespace TypeAlias

/-- Embedding of the constructor `TypeAlias(SourceSpan, Identifier&&, Expression::Ref)`. -/
def construct (span : SourceSpan) (name : Identifier) (type : ExpressionRef) : TypeAlias :=
  { span := span, m_name := name, m_type := type }

/-- Embedding of `TypeAlias::name`, read through the returned reference. -/
def name (self : TypeAlias) : Identifier := self.m_name

/-- Embedding of `TypeAlias::type`: the expression the returned reference refers to. -/
def type (self : TypeAlias) : ExpressionRef := self.m_type

end TypeAlias

/-- A use of the public interface of a `TypeAlias`. `kind`, `name` and `type` are the
three member functions; `name` and `type` return references that are not `const`, so a
caller can also assign through them: to the member `m_name`, resp. to the expression node
that `m_type` refers to. `E` is the type of the contents of an expression node. -/
inductive Use (E : Type) where
  | kind
  | name
  | assignThroughName (identifier : Identifier)
  | type
  | assignThroughType (contents : E)

/-- The effect of one use on the node and on the store of expression nodes. -/
def Use.apply {E : Type} : Use E → TypeAlias × (ExpressionRef → E) →
    TypeAlias × (ExpressionRef → E)
  | .kind, s => s
  | .name, s => s
  | .assignThroughName identifier, (node, store) => ({ node with m_name := identifier }, store)
  | .type, s => s
  | .assignThroughType contents, (node, store) =>
    (node, fun r => if r = node.type then contents else store r)

/-- The effect of a sequence of uses, first use first. -/
def runUses {E : Type} (uses : List (Use E)) (s : TypeAlias × (ExpressionRef → E)) :
    TypeAlias × (ExpressionRef → E) :=
  uses.foldl (fun acc use => use.apply acc) s

end WGSL.AST

namespace WebCore

/-! ## Paint sources of the graphics state -/

/-- Embedding of the constructor `GraphicsContextState::GraphicsContextState()`: the four
flags of its initialiser list, null paint-source pointers, and, modelled from the spec, the
default member initialisers of the header for the other members (black stroke and fill
color, solid stroke, non-zero fill rule, alpha 1, zero codes for the numeric kinds). -/
def GraphicsContextState.construct : GraphicsContextState where
  strokeGradient := none
  strokePattern := none
  fillGradient := none
  fillPattern := none
  strokeGradientSpaceTransform := [1, 0, 0, 1, 0, 0]
  fillGradientSpaceTransform := [1, 0, 0, 1, 0, 0]
  shadowOffset := ⟨.finite 0, .finite 0⟩
  shadowBlur := .finite 0
  shadowColor := Color.invalid
  strokeThickness := .finite 0
  textDrawingMode := 1
  strokeColor := Color.rgba 0xFF000000
  fillColor := Color.rgba 0xFF000000
  strokeStyle := StrokeStyle.SolidStroke
  fillRule := WindRule.NonZero
  alpha := .finite 1
  compositeOperator := 0
  blendMode := 0
  imageInterpolationQuality := 0
  shouldAntialias := true
  shouldSmoothFonts := true
  shouldSubpixelQuantizeFonts := true
  shadowsIgnoreTransforms := false
  drawLuminanceMask := false

/-- The calls named in the paint-source invariant: the three stroke setters, the three fill
setters, `save` and `restore`. -/
def Op.isPaintOp : Op → Bool
  | .save => true
  | .restore => true
  | .set (.setStrokeColor _) => true
  | .set (.setStrokeGradient _ _) => true
  | .set (.setStrokePattern _) => true
  | .set (.setFillColor _) => true
  | .set (.setFillGradient _ _) => true
  | .set (.setFillPattern _) => true
  | .set _ => false

/-- At most one of the stroke gradient and the stroke pattern is set, and the stroke color
is the default (invalid) color whenever one of them is; the same for the fill. -/
def PaintSourcesExclusive (s : GraphicsContextState) : Prop :=
  (s.strokeGradient = none ∨ s.strokePattern = none) ∧
  (s.strokeGradient ≠ none ∨ s.strokePattern ≠ none → s.strokeColor = Color.invalid) ∧
  (s.fillGradient = none ∨ s.fillPattern = none) ∧
  (s.fillGradient ≠ none ∨ s.fillPattern ≠ none → s.fillColor = Color.invalid)

/-- A call sequence over the paint setters with an unmatched `restore` and a `save`. -/
def examplePaintOps : List Op :=
  [Op.set (Setter.setStrokeGradient 7 []), Op.restore, Op.save,
    Op.set (Setter.setFillPattern 9), Op.set (Setter.setStrokeColor (Color.rgba 1)), Op.restore]

/-! ## RSA-PSS: the configuration shared by signing and verification -/

section RSA_PSS_configuration

variable {MD PKey Ctx HashId : Type}

namespace Spec

/-- Specification of the key-context configuration: `RSA_PKCS1_PSS_PADDING` as the padding,
`parameters.saltLength` as the PSS salt length, and `md` as both the signature digest and
the MGF1 digest, in this order; `none` when one of the four calls does not return a
positive value. -/
def configurePss (ssl : OpenSSL MD PKey Ctx HashId) (parameters : CryptoAlgorithmRsaPssParams)
    (md : MD) (ctx : Ctx) : Option Ctx :=
  let padding := ssl.EVP_PKEY_CTX_set_rsa_padding ctx RSA_PKCS1_PSS_PADDING
  if padding.1 ≤ 0 then none else
  let saltLength := ssl.EVP_PKEY_CTX_set_rsa_pss_saltlen padding.2 parameters.saltLength
  if saltLength.1 ≤ 0 then none else
  let signatureDigest := ssl.EVP_PKEY_CTX_set_signature_md saltLength.2 md
  if signatureDigest.1 ≤ 0 then none else
  let mgf1Digest := ssl.EVP_PKEY_CTX_set_rsa_mgf1_md signatureDigest.2 md
  if mgf1Digest.1 ≤ 0 then none else
  some mgf1Digest.2

/-- Specification of everything that precedes the signing or verifying call: look up the
digest algorithm of the key's hash identifier, digest the data under it, create the key
context, run `init` (`EVP_PKEY_sign_init` or `EVP_PKEY_verify_init`) and configure the
context with `configurePss`. The result is the configured context with the digest. -/
def prepare (ssl : OpenSSL MD PKey Ctx HashId) (init : Ctx → Int × Ctx)
    (parameters : CryptoAlgorithmRsaPssParams) (key : CryptoKeyRSA PKey HashId)
    (data : List Byte) : ExceptionOr (Ctx × List Byte) :=
  match ssl.digestAlgorithm key.hashAlgorithmIdentifier with
  | none => .error .NotSupportedError
  | some md =>
    match ssl.calculateDigest md data with
    | none => .error .OperationError
    | some digest =>
      match ssl.EVP_PKEY_CTX_new key.platformKey with
      | none => .error .OperationError
      | some ctx =>
        if (init ctx).1 ≤ 0 then .error .OperationError
        else
          match configurePss ssl parameters md (init ctx).2 with
          | none => .error .OperationError
          | some configured => .ok (configured, digest)

/-- Specification of the signing step on a configured context: `EVP_PKEY_sign` is given
the digest twice, first to learn the length and then to write the signature. -/
def sign (ssl : OpenSSL MD PKey Ctx HashId) (ctx : Ctx) (digest : List Byte) :
    ExceptionOr (List Byte) :=
  let size := ssl.EVP_PKEY_sign_null ctx digest
  if size.1 ≤ 0 then .error .OperationError else
  let written := ssl.EVP_PKEY_sign size.2.2 size.2.1 digest
  if written.1 ≤ 0 then .error .OperationError else
  .ok (shrink written.2.1 written.2.2.1)

/-- Specification of the verifying step on a configured context: `EVP_PKEY_verify` is given
the signature and the digest. -/
def verify (ssl : OpenSSL MD PKey Ctx HashId) (ctx : Ctx) (signature digest : List Byte) :
    ExceptionOr Bool :=
  .ok (decide (ssl.EVP_PKEY_verify ctx signature digest = 1))

end Spec

end RSA_PSS_configuration

/-- One call on a key context, with its arguments, as kept by `recordingOpenSSL`. -/
inductive PKeyCall where
  | sign_init
  | verify_init
  | set_rsa_padding (padding : Int)
  | set_rsa_pss_saltlen (saltLength : Nat)
  | set_signature_md (md : Nat)
  | set_rsa_mgf1_md (md : Nat)
  deriving DecidableEq, Repr

/-- A library that succeeds everywhere and keeps, as the state of the key context, the list
of calls made on it. The digest algorithm of hash `h` is `h + 100`, the digest of `data`
under `md` is `data` reversed with `md` in front (so never the data itself), signing echoes
the bytes it is asked to sign, and verification accepts a signature equal to the bytes it
is asked to verify. -/
def recordingOpenSSL : OpenSSL Nat Unit (List PKeyCall) Nat where
  digestAlgorithm := fun h => some (h + 100)
  calculateDigest := fun md data => some (Fin.ofNat md :: data.reverse)
  EVP_PKEY_CTX_new := fun _ => some []
  EVP_PKEY_sign_init := fun c => (1, c ++ [PKeyCall.sign_init])
  EVP_PKEY_verify_init := fun c => (1, c ++ [PKeyCall.verify_init])
  EVP_PKEY_CTX_set_rsa_padding := fun c padding => (1, c ++ [PKeyCall.set_rsa_padding padding])
  EVP_PKEY_CTX_set_rsa_pss_saltlen := fun c n => (1, c ++ [PKeyCall.set_rsa_pss_saltlen n])
  EVP_PKEY_CTX_set_signature_md := fun c md => (1, c ++ [PKeyCall.set_signature_md md])
  EVP_PKEY_CTX_set_rsa_mgf1_md := fun c md => (1, c ++ [PKeyCall.set_rsa_mgf1_md md])
  EVP_PKEY_sign_null := fun c tbs => (1, tbs.length, c)
  EVP_PKEY_sign := fun c _ tbs => (1, tbs, tbs.length, c)
  EVP_PKEY_verify := fun _ signature tbs => if signature = tbs then 1 else 0

/-! ## Theorems -/

namespace GraphicsContext

theorem save_enabled (c : GraphicsContext) (h : c.paintingDisabled = false) :
    (c.save).m_state = c.m_state ∧ (c.save).m_stack = c.m_stack ++ [c.m_state] ∧
    (c.save).paintingDisabled = false := by
  unfold save emit
  cases hi : c.m_impl <;> simp [h, hi]

theorem restore_enabled_push (c : GraphicsContext) (k : List GraphicsContextState)
    (s : GraphicsContextState) (h : c.paintingDisabled = false) (hk : c.m_stack = k ++ [s]) :
    (c.restore).m_state = s ∧ (c.restore).m_stack = k ∧ (c.restore).paintingDisabled = false := by
  have hl : c.m_stack.getLast? = some s := by rw [hk]; simp
  have hd : c.m_stack.dropLast = k := by rw [hk]; simp
  unfold restore emit
  simp only [h, hl, hd]
  by_cases hke : k = [] <;> cases hi : c.m_impl <;> simp [hke]

end GraphicsContext

theorem Setter.apply_stack (s : Setter) (c : GraphicsContext) :
    (s.apply c).m_stack = c.m_stack ∧ (s.apply c).paintingDisabled = c.paintingDisabled := by
  cases s <;> cases hi : c.m_impl <;> cases hp : c.paintingDisabled <;>
    simp [Setter.apply, GraphicsContext.setStrokeThickness, GraphicsContext.setStrokeStyle,
      GraphicsContext.setStrokeColor, GraphicsContext.setShadow, GraphicsContext.setLegacyShadow,
      GraphicsContext.clearShadow, GraphicsContext.setFillColor,
      GraphicsContext.setShadowsIgnoreTransforms, GraphicsContext.setShouldAntialias,
      GraphicsContext.setShouldSmoothFonts, GraphicsContext.setShouldSubpixelQuantizeFonts,
      GraphicsContext.setImageInterpolationQuality, GraphicsContext.setStrokePattern,
      GraphicsContext.setFillPattern, GraphicsContext.setStrokeGradient,
      GraphicsContext.setFillRule, GraphicsContext.setFillGradient,
      GraphicsContext.setTextDrawingMode, GraphicsContext.setAlpha,
      GraphicsContext.setCompositeOperation, GraphicsContext.setDrawLuminanceMask,
      GraphicsContext.notify, GraphicsContext.emit, hi, hp]

theorem runOps_cons (op : Op) (ops : List Op) (c : GraphicsContext) :
    runOps (op :: ops) c = runOps ops (op.apply c) := rfl

theorem runOps_append (xs ys : List Op) (c : GraphicsContext) :
    runOps (xs ++ ys) c = runOps ys (runOps xs c) := by
  simp [runOps, List.foldl_append]

theorem Nested.runOps_stack {ops : List Op} (hn : Nested ops) :
    ∀ c : GraphicsContext, c.paintingDisabled = false →
      (runOps ops c).m_stack = c.m_stack ∧ (runOps ops c).paintingDisabled = false := by
  induction hn with
  | nil => intro c h; exact ⟨rfl, h⟩
  | set s _ ih =>
    intro c h
    rw [runOps_cons]
    have hs := Setter.apply_stack s c
    have := ih (Op.apply (Op.set s) c) (by simpa [Op.apply, h] using hs.2)
    refine ⟨?_, this.2⟩
    rw [this.1]
    exact hs.1
  | pair _ _ ihi ihr =>
    intro c h
    rw [runOps_cons, runOps_append, runOps_cons]
    have hsave := GraphicsContext.save_enabled c h
    have hin := ihi (Op.apply Op.save c) hsave.2.2
    have hre := GraphicsContext.restore_enabled_push (runOps _ (Op.apply Op.save c))
      c.m_stack c.m_state hin.2 (by rw [hin.1]; exact hsave.2.1)
    have := ihr _ hre.2.2
    exact ⟨this.1.trans hre.2.1, this.2⟩

theorem exampleOps_nested : Nested exampleOps :=
  Nested.set _ (Nested.pair (Nested.set _ Nested.nil) Nested.nil)

/-- C1: with painting enabled, `save()`, then any sequence of state setters and properly
nested `save()`/`restore()` pairs, then `restore()` leaves the current state and the state
stack as they were before the `save()`. -/
theorem GraphicsContext.save_nested_restore (c : GraphicsContext) (ops : List Op)
    (h : c.paintingDisabled = false) (hn : Nested ops) :
    (runOps (Op.save :: (ops ++ [Op.restore])) c).m_state = c.m_state ∧
    (runOps (Op.save :: (ops ++ [Op.restore])) c).m_stack = c.m_stack := by
  rw [runOps_cons, runOps_append]
  have hsave := GraphicsContext.save_enabled c h
  have hin := hn.runOps_stack (Op.apply Op.save c) hsave.2.2
  have hre := GraphicsContext.restore_enabled_push (runOps ops (Op.apply Op.save c))
    c.m_stack c.m_state hin.2 (by rw [hin.1]; exact hsave.2.1)
  exact ⟨hre.1, hre.2.1⟩

theorem GraphicsContext.save_nested_restore_witness :
    exampleContext.paintingDisabled = false ∧ Nested exampleOps ∧
    (runOps (Op.save :: (exampleOps ++ [Op.restore])) exampleContext).m_state
      = exampleContext.m_state ∧
    (runOps (Op.save :: (exampleOps ++ [Op.restore])) exampleContext).m_stack
      = exampleContext.m_stack :=
  ⟨rfl, exampleOps_nested,
    GraphicsContext.save_nested_restore exampleContext exampleOps rfl exampleOps_nested⟩

/-- C2: with painting enabled and an empty state stack, `restore()` only reports an error:
the current state is unchanged, the stack stays empty, and the only outgoing call is the
error log, so neither the implementation's `restore()` nor `restorePlatformState()` runs. -/
theorem GraphicsContext.restore_empty_stack (c : GraphicsContext)
    (h : c.paintingDisabled = false) (hk : c.m_stack = []) :
    (c.restore).m_state = c.m_state ∧ (c.restore).m_stack = [] ∧
    (c.restore).calls
      = c.calls ++ [Call.logError "ERROR void GraphicsContext::restore() stack is empty"] ∧
    Call.implRestore ∉ (c.restore).calls.drop c.calls.length ∧
    Call.restorePlatformState ∉ (c.restore).calls.drop c.calls.length := by
  have hr : c.restore
      = c.emit (Call.logError "ERROR void GraphicsContext::restore() stack is empty") := by
    unfold GraphicsContext.restore
    simp [h, hk]
  rw [hr]
  simp [GraphicsContext.emit, hk]

theorem GraphicsContext.restore_empty_stack_witness :
    exampleContext.paintingDisabled = false ∧ exampleContext.m_stack = [] ∧
    (exampleContext.restore).m_state = exampleContext.m_state ∧
    (exampleContext.restore).m_stack = [] ∧
    (exampleContext.restore).calls = exampleContext.calls
      ++ [Call.logError "ERROR void GraphicsContext::restore() stack is empty"] ∧
    Call.implRestore ∉ (exampleContext.restore).calls.drop exampleContext.calls.length ∧
    Call.restorePlatformState ∉
      (exampleContext.restore).calls.drop exampleContext.calls.length :=
  ⟨rfl, rfl, GraphicsContext.restore_empty_stack exampleContext rfl rfl⟩

section RSA_PSS

variable {MD PKey Ctx HashId : Type}

theorem platformSign_ok_iff (ssl : OpenSSL MD PKey Ctx HashId)
    (parameters : CryptoAlgorithmRsaPssParams) (key : CryptoKeyRSA PKey HashId)
    (data sig : List Byte) :
    platformSign ssl parameters key data = .ok sig ↔
      ∃ buffer len, SignSucceeds ssl parameters key data buffer len ∧
        sig = shrink buffer len := by
  constructor
  · intro h
    unfold platformSign at h
    split at h
    · cases h
    · rename_i md hmd
      split at h
      · cases h
      · rename_i digest hdig
        split at h
        · cases h
        · rename_i c0 hc0
          simp only at h
          split_ifs at h with h1 h2 h3 h4 h5 h6 h7
          injection h with h
          exact ⟨_, _, ⟨md, digest, _, _, _, _, _, _, ⟨hmd, hdig, _, _, _, _, _, _, _, _, _, _,
            hc0, rfl, not_le.mp h1, rfl, not_le.mp h2, rfl, not_le.mp h3, rfl, not_le.mp h4,
            rfl, not_le.mp h5⟩, rfl, not_le.mp h6, rfl, not_le.mp h7⟩, h.symm⟩
  · rintro ⟨buffer, len, ⟨md, digest, c5, c6, c7, n6, n7, cap,
      ⟨hmd, hdig, c0, c1, c2, c3, c4, n1, n2, n3, n4, n5, hc0, e1, p1, e2, p2, e3, p3, e4, p4,
        e5, p5⟩, e6, p6, e7, p7⟩, rfl⟩
    unfold platformSign
    simp only [hmd, hdig, hc0, e1, e2, e3, e4, e5, e6, e7]
    simp [not_le.mpr p1, not_le.mpr p2, not_le.mpr p3, not_le.mpr p4, not_le.mpr p5,
      not_le.mpr p6, not_le.mpr p7]

theorem platformSign_error (ssl : OpenSSL MD PKey Ctx HashId)
    (parameters : CryptoAlgorithmRsaPssParams) (key : CryptoKeyRSA PKey HashId)
    (data : List Byte) (e : ExceptionCode)
    (h : platformSign ssl parameters key data = .error e) :
    (e = .NotSupportedError ∧ ssl.digestAlgorithm key.hashAlgorithmIdentifier = none) ∨
    (e = .OperationError ∧ ∃ md, ssl.digestAlgorithm key.hashAlgorithmIdentifier = some md) := by
  unfold platformSign at h
  split at h
  · rename_i hmd
    injection h with h
    exact Or.inl ⟨h.symm, hmd⟩
  · rename_i md hmd
    refine Or.inr ⟨?_, md, hmd⟩
    split at h
    · injection h with h; exact h.symm
    · split at h
      · injection h with h; exact h.symm
      · simp only at h
        split_ifs at h <;> injection h with h <;> exact h.symm

theorem platformVerify_ok_iff (ssl : OpenSSL MD PKey Ctx HashId)
    (parameters : CryptoAlgorithmRsaPssParams) (key : CryptoKeyRSA PKey HashId)
    (signature data : List Byte) (b : Bool) :
    platformVerify ssl parameters key signature data = .ok b ↔
      ∃ md digest ctx,
        SetupSucceeds ssl ssl.EVP_PKEY_verify_init parameters key data md digest ctx ∧
        b = decide (ssl.EVP_PKEY_verify ctx signature digest = 1) := by
  constructor
  · intro h
    unfold platformVerify at h
    split at h
    · cases h
    · rename_i md hmd
      split at h
      · cases h
      · rename_i digest hdig
        split at h
        · cases h
        · rename_i c0 hc0
          simp only at h
          split_ifs at h with h1 h2 h3 h4 h5
          injection h with h
          exact ⟨md, digest, _, ⟨hmd, hdig, _, _, _, _, _, _, _, _, _, _,
            hc0, rfl, not_le.mp h1, rfl, not_le.mp h2, rfl, not_le.mp h3, rfl, not_le.mp h4,
            rfl, not_le.mp h5⟩, h.symm⟩
  · rintro ⟨md, digest, ctx, ⟨hmd, hdig, c0, c1, c2, c3, c4, n1, n2, n3, n4, n5, hc0, e1, p1,
      e2, p2, e3, p3, e4, p4, e5, p5⟩, rfl⟩
    unfold platformVerify
    simp only [hmd, hdig, hc0, e1, e2, e3, e4, e5]
    simp [not_le.mpr p1, not_le.mpr p2, not_le.mpr p3, not_le.mpr p4, not_le.mpr p5]

theorem platformVerify_error (ssl : OpenSSL MD PKey Ctx HashId)
    (parameters : CryptoAlgorithmRsaPssParams) (key : CryptoKeyRSA PKey HashId)
    (signature data : List Byte) (e : ExceptionCode)
    (h : platformVerify ssl parameters key signature data = .error e) :
    (e = .NotSupportedError ∧ ssl.digestAlgorithm key.hashAlgorithmIdentifier = none) ∨
    (e = .OperationError ∧ ∃ md, ssl.digestAlgorithm key.hashAlgorithmIdentifier = some md) := by
  unfold platformVerify at h
  split at h
  · rename_i hmd
    injection h with h
    exact Or.inl ⟨h.symm, hmd⟩
  · rename_i md hmd
    refine Or.inr ⟨?_, md, hmd⟩
    split at h
    · injection h with h; exact h.symm
    · split at h
      · injection h with h; exact h.symm
      · simp only at h
        split_ifs at h <;> injection h with h <;> exact h.symm

/-- C3: `platformSign` returns `NotSupportedError` exactly when the key's hash identifier has
no digest algorithm; when the digest algorithm exists and some later step fails, the result
is `OperationError`; and a signature is returned exactly when every step succeeded, in which
case it is the buffer written by the second `EVP_PKEY_sign` call shrunk to the length that
call reported: the first `len` bytes of the buffer, hence at most `len` bytes. -/
theorem platformSign_spec (ssl : OpenSSL MD PKey Ctx HashId)
    (parameters : CryptoAlgorithmRsaPssParams) (key : CryptoKeyRSA PKey HashId)
    (data : List Byte) :
    (platformSign ssl parameters key data = .error .NotSupportedError ↔
      ssl.digestAlgorithm key.hashAlgorithmIdentifier = none) ∧
    (∀ md, ssl.digestAlgorithm key.hashAlgorithmIdentifier = some md →
      (¬ ∃ buffer len, SignSucceeds ssl parameters key data buffer len) →
      platformSign ssl parameters key data = .error .OperationError) ∧
    (∀ sig, platformSign ssl parameters key data = .ok sig ↔
      ∃ buffer len, SignSucceeds ssl parameters key data buffer len ∧
        sig = buffer.take len ∧ sig.length ≤ len) := by
  refine ⟨⟨fun h => ?_, fun h => ?_⟩, fun md hmd hfail => ?_, fun sig => ?_⟩
  rotate_right
  · rw [platformSign_ok_iff]
    constructor
    · rintro ⟨buffer, len, hs, rfl⟩
      exact ⟨buffer, len, hs, rfl, by simp [shrink]⟩
    · rintro ⟨buffer, len, hs, rfl, _⟩
      exact ⟨buffer, len, hs, rfl⟩
  · rcases platformSign_error ssl parameters key data _ h with ⟨_, hn⟩ | ⟨he, _⟩
    · exact hn
    · cases he
  · unfold platformSign
    simp [h]
  · cases hr : platformSign ssl parameters key data with
    | error e =>
      rcases platformSign_error ssl parameters key data e hr with ⟨_, hn⟩ | ⟨he, _⟩
      · rw [hmd] at hn; cases hn
      · rw [he]
    | ok sig =>
      obtain ⟨buffer, len, hs, _⟩ := (platformSign_ok_iff ssl parameters key data sig).mp hr
      exact absurd ⟨buffer, len, hs⟩ hfail

/-- C4: when every setup step of `platformVerify` succeeds the result is a boolean, true
exactly when `EVP_PKEY_verify` returned 1; an exception comes only from a failing setup step:
`NotSupportedError` exactly when the key's hash identifier has no digest algorithm, and
`OperationError` for every other failing setup step. -/
theorem platformVerify_spec (ssl : OpenSSL MD PKey Ctx HashId)
    (parameters : CryptoAlgorithmRsaPssParams) (key : CryptoKeyRSA PKey HashId)
    (signature data : List Byte) :
    (∀ md digest ctx,
      SetupSucceeds ssl ssl.EVP_PKEY_verify_init parameters key data md digest ctx →
      ∃ b, platformVerify ssl parameters key signature data = .ok b ∧
        (b = true ↔ ssl.EVP_PKEY_verify ctx signature digest = 1)) ∧
    (platformVerify ssl parameters key signature data = .error .NotSupportedError ↔
      ssl.digestAlgorithm key.hashAlgorithmIdentifier = none) ∧
    (∀ md, ssl.digestAlgorithm key.hashAlgorithmIdentifier = some md →
      (¬ ∃ digest ctx,
        SetupSucceeds ssl ssl.EVP_PKEY_verify_init parameters key data md digest ctx) →
      platformVerify ssl parameters key signature data = .error .OperationError) ∧
    (∀ e, platformVerify ssl parameters key signature data = .error e →
      ¬ ∃ md digest ctx,
        SetupSucceeds ssl ssl.EVP_PKEY_verify_init parameters key data md digest ctx) := by
  refine ⟨fun md digest ctx hs => ?_, ⟨fun h => ?_, fun h => ?_⟩, fun md hmd hfail => ?_,
    fun e he => ?_⟩
  · exact ⟨_, (platformVerify_ok_iff ssl parameters key signature data _).mpr
      ⟨md, digest, ctx, hs, rfl⟩, by simp⟩
  · rcases platformVerify_error ssl parameters key signature data _ h with ⟨_, hn⟩ | ⟨he, _⟩
    · exact hn
    · cases he
  · unfold platformVerify
    simp [h]
  · cases hr : platformVerify ssl parameters key signature data with
    | error e =>
      rcases platformVerify_error ssl parameters key signature data e hr with ⟨_, hn⟩ | ⟨he, _⟩
      · rw [hmd] at hn; cases hn
      · rw [he]
    | ok b =>
      obtain ⟨md2, digest, ctx, hs, _⟩ :=
        (platformVerify_ok_iff ssl parameters key signature data b).mp hr
      have : md2 = md := by
        have h1 := hs.1
        rw [hmd] at h1
        exact (Option.some.inj h1).symm
      subst this
      exact absurd ⟨digest, ctx, hs⟩ hfail
  · rintro ⟨md, digest, ctx, hs⟩
    have hok := (platformVerify_ok_iff ssl parameters key signature data _).mpr
      ⟨md, digest, ctx, hs, rfl⟩
    rw [hok] at he
    cases he

end RSA_PSS

theorem platformSign_example :
    platformSign exampleOpenSSL ⟨32⟩ ⟨0, ()⟩ [7, 9] = .ok [7] ∧
    platformSign exampleOpenSSL ⟨32⟩ ⟨1, ()⟩ [7, 9] = .error .NotSupportedError := by
  constructor <;> rfl

theorem platformVerify_example :
    platformVerify exampleOpenSSL ⟨32⟩ ⟨0, ()⟩ [7] [7, 9] = .ok true ∧
    platformVerify exampleOpenSSL ⟨32⟩ ⟨0, ()⟩ [8] [7, 9] = .ok false ∧
    platformVerify exampleOpenSSL ⟨32⟩ ⟨1, ()⟩ [7] [7, 9] = .error .NotSupportedError := by
  refine ⟨?_, ?_, ?_⟩ <;> rfl

section Ancestors

variable {α : Type}

theorem findAncestorLoop_null (parentObject : α → Option α) (matchesFn : α → Bool)
    (fuel : Nat) : findAncestorLoop parentObject matchesFn fuel none = some none := by
  cases fuel <;> rfl

theorem findAncestorLoop_chain {parentObject : α → Option α} (matchesFn : α → Bool)
    {p : α} {chain : List α} (h : ParentChain parentObject p chain) :
    ∀ fuel, chain.length + 1 ≤ fuel →
      findAncestorLoop parentObject matchesFn fuel (some p)
        = some ((p :: chain).find? matchesFn) := by
  induction h with
  | @root o hp =>
    intro fuel hf
    obtain ⟨f, rfl⟩ : ∃ f, fuel = f + 1 := ⟨fuel - 1, by omega⟩
    cases hm : matchesFn o <;>
      simp [findAncestorLoop, hp, findAncestorLoop_null, List.find?, hm]
  | @step o q chain hp _ ih =>
    intro fuel hf
    obtain ⟨f, rfl⟩ : ∃ f, fuel = f + 1 := ⟨fuel - 1, by omega⟩
    have hq := ih f (by simpa using hf)
    cases hm : matchesFn o
    · rw [List.find?_cons_of_neg _ (by simp [hm])]
      simp only [findAncestorLoop, hm, hp]
      simpa using hq
    · simp [findAncestorLoop, hm]

theorem findAncestor_eq_find (parentObject : α → Option α) (isT matchesFn : α → Bool)
    (object : α) (chain : List α) (includeSelf : Bool) (fuel : Nat)
    (hchain : ParentChain parentObject object chain) (hT : ∀ x ∈ chain, isT x = true)
    (hfuel : chain.length + 1 ≤ fuel) :
    findAncestor parentObject isT fuel object includeSelf matchesFn
      = some ((if includeSelf then object :: chain else chain).find? matchesFn) := by
  unfold findAncestor
  cases includeSelf
  · cases hchain with
    | root hp => simp [hp]
    | @step _ q rest hp hrest =>
      have hq : isT q = true := hT q (List.mem_cons_self _ _)
      simp only [hp, hq]
      simpa using findAncestorLoop_chain matchesFn hrest fuel (by simp at hfuel; omega)
  · simpa using findAncestorLoop_chain matchesFn hchain fuel hfuel

/-- C5: on an object whose parent chain is finite and consists of objects of type `T`,
`findAncestor` terminates (any fuel above the chain length suffices) and returns the first
object satisfying `matchesFn` in the sequence `object` (only when `includeSelf`), its parent,
the parent of its parent, ...; the result is null exactly when no object of the sequence
matches, and a non-null result matches while nothing before it in the sequence does. -/
theorem findAncestor_first_match (parentObject : α → Option α) (isT matchesFn : α → Bool)
    (object : α) (chain : List α) (includeSelf : Bool) (fuel : Nat)
    (hchain : ParentChain parentObject object chain) (hT : ∀ x ∈ chain, isT x = true)
    (hfuel : chain.length + 1 ≤ fuel) :
    findAncestor parentObject isT fuel object includeSelf matchesFn
      = some ((if includeSelf then object :: chain else chain).find? matchesFn) ∧
    (findAncestor parentObject isT fuel object includeSelf matchesFn = some none ↔
      ∀ x ∈ (if includeSelf then object :: chain else chain), matchesFn x = false) ∧
    (∀ r, findAncestor parentObject isT fuel object includeSelf matchesFn = some (some r) →
      matchesFn r = true ∧
      ∃ before after, (if includeSelf then object :: chain else chain) = before ++ r :: after ∧
        ∀ x ∈ before, matchesFn x = false) := by
  have key := findAncestor_eq_find parentObject isT matchesFn object chain includeSelf fuel
    hchain hT hfuel
  refine ⟨key, ?_, ?_⟩
  · rw [key]
    simp
  · intro r hr
    rw [key] at hr
    have hfind := List.find?_eq_some.mp (Option.some.inj hr)
    obtain ⟨hm, before, after, hsplit, hbefore⟩ := hfind
    exact ⟨hm, before, after, hsplit, fun x hx => by simpa using hbefore x hx⟩

theorem findAncestor_first_match_witness :
    ParentChain exampleParent 3 [1, 0] ∧ (∀ x ∈ [1, 0], (fun _ : Nat => true) x = true) ∧
    findAncestor exampleParent (fun _ => true) 3 3 false (fun x => decide (x = 0))
      = some ((if false then 3 :: [1, 0] else [1, 0]).find? (fun x => decide (x = 0))) ∧
    (findAncestor exampleParent (fun _ => true) 3 3 false (fun x => decide (x = 0))
        = some none ↔
      ∀ x ∈ (if false then 3 :: [1, 0] else [1, 0]), (fun x => decide (x = 0)) x = false) ∧
    (∀ r, findAncestor exampleParent (fun _ => true) 3 3 false (fun x => decide (x = 0))
        = some (some r) →
      (fun x => decide (x = 0)) r = true ∧
      ∃ before after, (if false then 3 :: [1, 0] else [1, 0]) = before ++ r :: after ∧
        ∀ x ∈ before, (fun x => decide (x = 0)) x = false) :=
  have hchain : ParentChain exampleParent 3 [1, 0] :=
    ParentChain.step rfl (ParentChain.step rfl (ParentChain.root rfl))
  ⟨hchain, fun _ _ => rfl,
    findAncestor_first_match exampleParent (fun _ => true) (fun x => decide (x = 0)) 3 [1, 0]
      false 3 hchain (fun _ _ => rfl) (by decide)⟩

theorem nthParent_chain {parentObject : α → Option α} {a : α} {chain : List α}
    (h : ParentChain parentObject a chain) : ∀ n, nthParent parentObject n a = (a :: chain)[n]? := by
  induction h with
  | @root o hp =>
    intro n
    cases n <;> simp [nthParent, hp]
  | @step o q chain hp _ ih =>
    intro n
    cases n with
    | zero => simp [nthParent]
    | succ n => simp [nthParent, hp, ih n]

theorem nthParent_add (parentObject : α → Option α) (m n : Nat) (a : α) :
    nthParent parentObject (m + n) a
      = (nthParent parentObject m a).bind (nthParent parentObject n) := by
  induction m generalizing a with
  | zero => simp [nthParent]
  | succ m ih =>
    rw [Nat.succ_add]
    simp only [nthParent]
    cases parentObject a with
    | none => rfl
    | some p => simpa using ih p

theorem mem_chain_iff {parentObject : α → Option α} {a : α} {chain : List α}
    (h : ParentChain parentObject a chain) (b : α) :
    b ∈ chain ↔ ∃ n, 1 ≤ n ∧ nthParent parentObject n a = some b := by
  rw [List.mem_iff_getElem?]
  constructor
  · rintro ⟨i, hi⟩
    exact ⟨i + 1, by omega, by rw [nthParent_chain h]; simpa using hi⟩
  · rintro ⟨n, hn, hb⟩
    obtain ⟨i, rfl⟩ : ∃ i, n = i + 1 := ⟨n - 1, by omega⟩
    rw [nthParent_chain h] at hb
    exact ⟨i, by simpa using hb⟩

theorem nthParent_cycle (parentObject : α → Option α) (a : α) (n : Nat)
    (h : nthParent parentObject n a = some a) :
    ∀ k, nthParent parentObject (n * k) a = some a := by
  intro k
  induction k with
  | zero => rfl
  | succ k ih =>
    rw [Nat.mul_succ, nthParent_add, ih]
    simpa using h

theorem not_mem_own_chain {parentObject : α → Option α} {a : α} {chain : List α}
    (h : ParentChain parentObject a chain) : a ∉ chain := by
  intro hmem
  obtain ⟨n, hn, hcyc⟩ := (mem_chain_iff h a).mp hmem
  have hk := nthParent_cycle parentObject a n hcyc (chain.length + 1)
  rw [nthParent_chain h, List.getElem?_eq_none] at hk
  · cases hk
  · simp only [List.length_cons]
    calc chain.length + 1 = 1 * (chain.length + 1) := by omega
      _ ≤ n * (chain.length + 1) := Nat.mul_le_mul_right _ hn

theorem isDescendantOfObject_eq [DecidableEq α] {parentObject : α → Option α} {a : α}
    {chain : List α} (h : ParentChain parentObject a chain) (fuel : Nat)
    (hfuel : chain.length < fuel) (b : α) :
    isDescendantOfObject parentObject fuel a (some b) = some (decide (b ∈ chain)) := by
  unfold isDescendantOfObject
  simp only
  rw [findAncestor_eq_find parentObject (fun _ => true) _ a chain false fuel h
    (fun _ _ => rfl) hfuel]
  simp only [Bool.false_eq_true, if_false, Option.map_some', Option.some.injEq]
  by_cases hb : b ∈ chain
  · simp only [hb, decide_True]
    rw [List.find?_isSome]
    exact ⟨b, hb, by simp⟩
  · simp only [hb, decide_False]
    rw [Bool.eq_false_iff]
    intro hs
    rw [List.find?_isSome] at hs
    obtain ⟨x, hx, hxb⟩ := hs
    simp only [decide_eq_true_eq] at hxb
    exact hb (hxb ▸ hx)

/-- C6: in a tree with finite parent chains, `a.isDescendantOfObject(b)` holds iff `b` is
reached from `a` by one or more `parentObject()` steps and `b.isAncestorOfObject(a)` holds
iff `b` is reached from `a` by zero or more steps; both calls terminate; the first relation
is irreflexive and transitive, the second is reflexive and equals "same object or
descendant"; both return false for a null argument. -/
theorem descendant_ancestor_relation [DecidableEq α] (parentObject : α → Option α)
    (fuel : Nat) (a b c : α) (chainA chainB : List α)
    (hA : ParentChain parentObject a chainA) (hB : ParentChain parentObject b chainB)
    (hfuelA : chainA.length < fuel) (hfuelB : chainB.length < fuel) :
    (isDescendantOfObject parentObject fuel a (some b) = some true ↔
      ∃ n, 1 ≤ n ∧ nthParent parentObject n a = some b) ∧
    (isDescendantOfObject parentObject fuel a (some b) = some false ↔
      ¬ ∃ n, 1 ≤ n ∧ nthParent parentObject n a = some b) ∧
    (isAncestorOfObject parentObject fuel b (some a) = some true ↔
      ∃ n, nthParent parentObject n a = some b) ∧
    (isAncestorOfObject parentObject fuel b (some a) = some false ↔
      ¬ ∃ n, nthParent parentObject n a = some b) ∧
    isDescendantOfObject parentObject fuel a (some a) = some false ∧
    (isDescendantOfObject parentObject fuel a (some b) = some true →
      isDescendantOfObject parentObject fuel b (some c) = some true →
      isDescendantOfObject parentObject fuel a (some c) = some true) ∧
    isAncestorOfObject parentObject fuel a (some a) = some true ∧
    (isAncestorOfObject parentObject fuel b (some a) = some true ↔
      (a = b ∨ isDescendantOfObject parentObject fuel a (some b) = some true)) ∧
    isDescendantOfObject parentObject fuel a none = some false ∧
    isAncestorOfObject parentObject fuel a none = some false := by
  have hdesc := fun x => isDescendantOfObject_eq hA fuel hfuelA x
  have hdescB := fun x => isDescendantOfObject_eq hB fuel hfuelB x
  have hreach : (∃ n, nthParent parentObject n a = some b) ↔ (a = b ∨ b ∈ chainA) := by
    constructor
    · rintro ⟨n, hn⟩
      cases n with
      | zero => exact Or.inl (by simpa [nthParent] using hn)
      | succ n => exact Or.inr ((mem_chain_iff hA b).mpr ⟨n + 1, by omega, hn⟩)
    · rintro (rfl | hmem)
      · exact ⟨0, rfl⟩
      · obtain ⟨n, _, hn⟩ := (mem_chain_iff hA b).mp hmem
        exact ⟨n, hn⟩
  have hanc : isAncestorOfObject parentObject fuel b (some a)
      = some (decide (a = b ∨ b ∈ chainA)) := by
    unfold isAncestorOfObject
    by_cases hab : b = a
    · simp [hab]
    · have hab2 : ¬ a = b := fun h => hab h.symm
      simp [hab, hab2, hdesc b]
  refine ⟨?_, ?_, ?_, ?_, ?_, ?_, ?_, ?_, rfl, rfl⟩
  · rw [hdesc b, ← mem_chain_iff hA b]; simp
  · rw [hdesc b, ← mem_chain_iff hA b]; simp
  · rw [hanc, hreach]; simp
  · rw [hanc, hreach]; simp
  · rw [hdesc a]; simp [not_mem_own_chain hA]
  · rw [hdesc b, hdescB c, hdesc c]
    simp only [Option.some.injEq, decide_eq_true_eq]
    intro hb hc
    obtain ⟨n, hn, hnb⟩ := (mem_chain_iff hA b).mp hb
    obtain ⟨m, _, hmc⟩ := (mem_chain_iff hB c).mp hc
    refine (mem_chain_iff hA c).mpr ⟨n + m, by omega, ?_⟩
    rw [nthParent_add, hnb]
    simpa using hmc
  · simp [isAncestorOfObject]
  · rw [hanc, hdesc b]; simp

theorem descendant_ancestor_relation_witness :
    ParentChain exampleParent 3 [1, 0] ∧ ParentChain exampleParent 1 [0] ∧
    [1, 0].length < 3 ∧ [0].length < 3 ∧
    (isDescendantOfObject exampleParent 3 3 (some 1) = some true ↔
      ∃ n, 1 ≤ n ∧ nthParent exampleParent n 3 = some 1) ∧
    (isDescendantOfObject exampleParent 3 3 (some 1) = some false ↔
      ¬ ∃ n, 1 ≤ n ∧ nthParent exampleParent n 3 = some 1) ∧
    (isAncestorOfObject exampleParent 3 1 (some 3) = some true ↔
      ∃ n, nthParent exampleParent n 3 = some 1) ∧
    (isAncestorOfObject exampleParent 3 1 (some 3) = some false ↔
      ¬ ∃ n, nthParent exampleParent n 3 = some 1) ∧
    isDescendantOfObject exampleParent 3 3 (some 3) = some false ∧
    (isDescendantOfObject exampleParent 3 3 (some 1) = some true →
      isDescendantOfObject exampleParent 3 1 (some 0) = some true →
      isDescendantOfObject exampleParent 3 3 (some 0) = some true) ∧
    isAncestorOfObject exampleParent 3 3 (some 3) = some true ∧
    (isAncestorOfObject exampleParent 3 1 (some 3) = some true ↔
      (3 = 1 ∨ isDescendantOfObject exampleParent 3 3 (some 1) = some true)) ∧
    isDescendantOfObject exampleParent 3 3 none = some false ∧
    isAncestorOfObject exampleParent 3 3 none = some false :=
  have hA : ParentChain exampleParent 3 [1, 0] :=
    ParentChain.step rfl (ParentChain.step rfl (ParentChain.root rfl))
  have hB : ParentChain exampleParent 1 [0] := ParentChain.step rfl (ParentChain.root rfl)
  ⟨hA, hB, by decide, by decide,
    descendant_ancestor_relation exampleParent 3 3 1 0 [1, 0] [0] hA hB (by decide)
      (by decide)⟩

theorem isDescendantOfObject_example :
    isDescendantOfObject exampleParent 3 3 (some 0) = some true ∧
    isDescendantOfObject exampleParent 3 2 (some 3) = some false ∧
    isAncestorOfObject exampleParent 3 0 (some 2) = some true := by
  refine ⟨?_, ?_, ?_⟩ <;> rfl

end Ancestors

theorem roleOfString_toString (role : AccessibilityRole) :
    roleOfString (accessibilityRoleToString role) = some role := by
  cases role <;> rfl

/-- C7: for every enumerator of `AccessibilityRole`, `accessibilityRoleToString` returns that
enumerator's identifier, which is a non-empty string, and two distinct roles never yield the
same string. -/
theorem accessibilityRoleToString_identifier :
    (∀ role, accessibilityRoleToString role = role.identifier) ∧
    (∀ role, accessibilityRoleToString role ≠ "") ∧
    (∀ r1 r2, accessibilityRoleToString r1 = accessibilityRoleToString r2 → r1 = r2) := by
  refine ⟨fun role => ?_, fun role => ?_, fun r1 r2 h => ?_⟩
  · cases role <;> rfl
  · cases role <;> decide
  · have h1 := roleOfString_toString r1
    rw [h, roleOfString_toString r2] at h1
    exact (Option.some.inj h1).symm

theorem char_eq_of_toNat_eq {a b : Char} (h : a.toNat = b.toNat) : a = b := by
  rw [← Char.ofNat_toNat a, ← Char.ofNat_toNat b, h]

theorem upper_range_iff (c : Char) : ('A' ≤ c ∧ c ≤ 'Z') ↔ (65 ≤ c.toNat ∧ c.toNat ≤ 90) :=
  Iff.rfl

theorem toASCIILower_of_upper (c : Char) (h1 : 65 ≤ c.toNat) (h2 : c.toNat ≤ 90) :
    (toASCIILower c).toNat = c.toNat + 32 := by
  have hc : c = Char.ofNat c.toNat := (Char.ofNat_toNat c).symm
  generalize c.toNat = n at hc h1 h2 ⊢
  subst hc
  interval_cases n <;> decide

theorem toASCIILower_of_not_upper (c : Char) (h : ¬ (65 ≤ c.toNat ∧ c.toNat ≤ 90)) :
    toASCIILower c = c := by
  unfold toASCIILower
  rw [if_neg]
  rw [upper_range_iff]
  exact h

theorem toASCIILower_eq_iff (c l : Char) (hl1 : 97 ≤ l.toNat) (hl2 : l.toNat ≤ 122) :
    toASCIILower c = l ↔ SameLetterIgnoringASCIICase c l := by
  unfold SameLetterIgnoringASCIICase
  by_cases hu : 65 ≤ c.toNat ∧ c.toNat ≤ 90
  · have ht := toASCIILower_of_upper c hu.1 hu.2
    constructor
    · intro h
      subst h
      exact Or.inr (Or.inl ⟨hu.1, hu.2, ht⟩)
    · rintro (h | ⟨_, _, h⟩ | ⟨h1, h2, _⟩)
      · subst h; omega
      · exact char_eq_of_toNat_eq (by omega)
      · omega
  · rw [toASCIILower_of_not_upper c hu]
    constructor
    · intro h; exact Or.inl h
    · rintro (h | ⟨h1, h2, _⟩ | ⟨h1, h2, _⟩)
      · exact h
      · exact absurd ⟨h1, h2⟩ hu
      · omega

theorem map_toASCIILower_eq_iff (cs : List Char) :
    ∀ letters : List Char, (∀ l ∈ letters, 97 ≤ l.toNat ∧ l.toNat ≤ 122) →
      (cs.map toASCIILower = letters ↔ EqualIgnoringASCIICase cs letters) := by
  unfold EqualIgnoringASCIICase
  induction cs with
  | nil =>
    intro letters _
    cases letters <;> simp
  | cons c rest ih =>
    intro letters hl
    cases letters with
    | nil => simp
    | cons l more =>
      have hl0 := hl l (List.mem_cons_self _ _)
      have hrest := ih more (fun x hx => hl x (List.mem_cons_of_mem _ hx))
      simp only [List.map_cons, List.cons.injEq, List.forall₂_cons]
      rw [toASCIILower_eq_iff c l hl0.1 hl0.2, hrest]

theorem literal_polite_lowercase :
    ∀ l ∈ "polite".toList, 97 ≤ l.toNat ∧ l.toNat ≤ 122 := by decide

theorem literal_assertive_lowercase :
    ∀ l ∈ "assertive".toList, 97 ≤ l.toNat ∧ l.toNat ≤ 122 := by decide

theorem liveRegionStatusIsEnabled_iff (status : WTFString) :
    liveRegionStatusIsEnabled status = true ↔
      ∃ cs, status = some cs ∧
        (EqualIgnoringASCIICase cs "polite".toList ∨
          EqualIgnoringASCIICase cs "assertive".toList) := by
  unfold liveRegionStatusIsEnabled equalLettersIgnoringASCIICase
  cases status with
  | none => simp
  | some cs =>
    simp only [Bool.or_eq_true, decide_eq_true_eq, Option.some.injEq, exists_eq_left']
    rw [map_toASCIILower_eq_iff cs _ literal_polite_lowercase,
      map_toASCIILower_eq_iff cs _ literal_assertive_lowercase]

/-- C8: `supportsLiveRegion(true)` holds exactly when the live-region status equals
`"polite"` or `"assertive"` ignoring ASCII case (so `"POLITE"` and `"AsSerTive"` are
accepted), `supportsLiveRegion(false)` exactly when the status is non-empty; hence the first
implies the second, and an object with status `"off"` is excluded by the first and included
by the second. -/
theorem supportsLiveRegion_spec (object : AXCoreObject) :
    (object.supportsLiveRegion true = true ↔
      ∃ cs, object.liveRegionStatus = some cs ∧
        (EqualIgnoringASCIICase cs "polite".toList ∨
          EqualIgnoringASCIICase cs "assertive".toList)) ∧
    (object.supportsLiveRegion false = true ↔
      ∃ cs, object.liveRegionStatus = some cs ∧ cs ≠ []) ∧
    (object.supportsLiveRegion true = true → object.supportsLiveRegion false = true) ∧
    (object.liveRegionStatus = some "off".toList →
      object.supportsLiveRegion true = false ∧ object.supportsLiveRegion false = true) ∧
    (object.liveRegionStatus = some "POLITE".toList →
      object.supportsLiveRegion true = true) ∧
    (object.liveRegionStatus = some "AsSerTive".toList →
      object.supportsLiveRegion true = true) ∧
    (object.liveRegionStatus = some "polit".toList →
      object.supportsLiveRegion true = false) := by
  have hfalse : object.supportsLiveRegion false = true ↔
      ∃ cs, object.liveRegionStatus = some cs ∧ cs ≠ [] := by
    unfold AXCoreObject.supportsLiveRegion WTFString.isEmpty
    cases object.liveRegionStatus with
    | none => simp
    | some cs => cases cs <;> simp
  have htrue : object.supportsLiveRegion true = true ↔
      ∃ cs, object.liveRegionStatus = some cs ∧
        (EqualIgnoringASCIICase cs "polite".toList ∨
          EqualIgnoringASCIICase cs "assertive".toList) := by
    unfold AXCoreObject.supportsLiveRegion
    simpa using liveRegionStatusIsEnabled_iff object.liveRegionStatus
  refine ⟨htrue, hfalse, fun h => ?_, fun hoff => ⟨?_, ?_⟩, fun h => ?_, fun h => ?_,
    fun h => ?_⟩
  · obtain ⟨cs, hcs, hmatch⟩ := htrue.mp h
    refine hfalse.mpr ⟨cs, hcs, ?_⟩
    rintro rfl
    rcases hmatch with h1 | h1 <;>
      exact absurd h1 (by unfold EqualIgnoringASCIICase SameLetterIgnoringASCIICase; decide)
  · unfold AXCoreObject.supportsLiveRegion
    rw [hoff]
    decide
  · unfold AXCoreObject.supportsLiveRegion
    rw [hoff]
    decide
  · unfold AXCoreObject.supportsLiveRegion
    rw [h]
    decide
  · unfold AXCoreObject.supportsLiveRegion
    rw [h]
    decide
  · unfold AXCoreObject.supportsLiveRegion
    rw [h]
    decide

theorem supportsLiveRegion_example :
    liveRegionStatusIsEnabled (some "POLITE".toList) = true ∧
    liveRegionStatusIsEnabled (some "Assertive".toList) = true ∧
    liveRegionStatusIsEnabled (some "polite".toList) = true ∧
    liveRegionStatusIsEnabled (some "off".toList) = false ∧
    liveRegionStatusIsEnabled (some "polite ".toList) = false ∧
    liveRegionStatusIsEnabled (some "pOLITf".toList) = false ∧
    liveRegionStatusIsEnabled none = false ∧
    EqualIgnoringASCIICase "POLite".toList "polite".toList ∧
    ¬ EqualIgnoringASCIICase "polite".toList "assertive".toList := by
  unfold EqualIgnoringASCIICase SameLetterIgnoringASCIICase
  decide

/-- C9: for an object with role `SpinButton`, `spinButtonType()` is `Standalone` if and only
if both `incrementButton()` and `decrementButton()` are null, and `Composite` otherwise. -/
theorem spinButtonType_spec (object : AXCoreObject) (_hrole : object.isSpinButton = true) :
    (object.spinButtonType = SpinButtonType.Standalone ↔
      object.incrementButton = none ∧ object.decrementButton = none) ∧
    (¬ (object.incrementButton = none ∧ object.decrementButton = none) →
      object.spinButtonType = SpinButtonType.Composite) := by
  unfold AXCoreObject.spinButtonType
  cases object.incrementButton <;> cases object.decrementButton <;> simp

theorem spinButtonType_spec_witness :
    exampleSpinButton.isSpinButton = true ∧
    (exampleSpinButton.spinButtonType = SpinButtonType.Standalone ↔
      exampleSpinButton.incrementButton = none ∧ exampleSpinButton.decrementButton = none) ∧
    (¬ (exampleSpinButton.incrementButton = none ∧ exampleSpinButton.decrementButton = none) →
      exampleSpinButton.spinButtonType = SpinButtonType.Composite) :=
  ⟨rfl, spinButtonType_spec exampleSpinButton rfl⟩

theorem spinButtonType_example :
    exampleSpinButton.spinButtonType = SpinButtonType.Composite ∧
    ({ exampleSpinButton with incrementButton := none }).spinButtonType
      = SpinButtonType.Standalone := by
  constructor <;> rfl

theorem tmod_two_ne_zero_iff_odd (n : Int) : Int.tmod n 2 ≠ 0 ↔ Odd n := by
  rw [← Int.not_even_iff_odd, even_iff_two_dvd, Int.dvd_iff_tmod_eq_zero]

/-- Away from the collapsing case (a dotted or dashed line with `p1.x + w = p2.x - w`), a
width with odd integer part shifts the x-coordinates of an input with `p1.x = p2.x` and the
y-coordinates of an input with `p1.x ≠ p2.x` by one half, the other coordinates carrying
only the inset of dotted and dashed lines; a width with even integer part adds no half. -/
theorem adjustLineToPixelBoundaries_regular (p1 p2 : FloatPoint) (w : ℚ) (style : StrokeStyle) :
    (Odd (truncateToInt w) → p1.x = p2.x →
      (adjustLineToPixelBoundaries p1 p2 w style).1.x = p1.x + 1 / 2 ∧
      (adjustLineToPixelBoundaries p1 p2 w style).2.x = p2.x + 1 / 2) ∧
    (Odd (truncateToInt w) → p1.x ≠ p2.x →
      ¬ ((style = StrokeStyle.DottedStroke ∨ style = StrokeStyle.DashedStroke) ∧
        p1.x + w = p2.x - w) →
      (adjustLineToPixelBoundaries p1 p2 w style).1.y = p1.y + 1 / 2 ∧
      (adjustLineToPixelBoundaries p1 p2 w style).2.y = p2.y + 1 / 2 ∧
      (adjustLineToPixelBoundaries p1 p2 w style).1.x
        = (if style = StrokeStyle.DottedStroke ∨ style = StrokeStyle.DashedStroke
            then p1.x + w else p1.x) ∧
      (adjustLineToPixelBoundaries p1 p2 w style).2.x
        = (if style = StrokeStyle.DottedStroke ∨ style = StrokeStyle.DashedStroke
            then p2.x - w else p2.x)) ∧
    (¬ Odd (truncateToInt w) →
      adjustLineToPixelBoundaries p1 p2 w style
        = (if style = StrokeStyle.DottedStroke ∨ style = StrokeStyle.DashedStroke then
            if p1.x = p2.x then ({ p1 with y := p1.y + w }, { p2 with y := p2.y - w })
            else ({ p1 with x := p1.x + w }, { p2 with x := p2.x - w })
          else (p1, p2))) := by
  refine ⟨fun hodd hx => ?_, fun hodd hx hreg => ?_, fun heven => ?_⟩
  · have ht := (tmod_two_ne_zero_iff_odd _).mpr hodd
    unfold adjustLineToPixelBoundaries
    by_cases hs : style = StrokeStyle.DottedStroke ∨ style = StrokeStyle.DashedStroke <;>
      simp [hs, hx, ht]
  · have ht := (tmod_two_ne_zero_iff_odd _).mpr hodd
    unfold adjustLineToPixelBoundaries
    by_cases hs : style = StrokeStyle.DottedStroke ∨ style = StrokeStyle.DashedStroke
    · have hne : ¬ p1.x + w = p2.x - w := fun h => hreg ⟨hs, h⟩
      simp [hs, hx, ht, hne]
    · simp [hs, hx, ht]
  · have ht : ¬ Int.tmod (truncateToInt w) 2 ≠ 0 := fun h =>
      heven ((tmod_two_ne_zero_iff_odd _).mp h)
    unfold adjustLineToPixelBoundaries
    simp only [ht, if_false]

/-- C10: at the horizontal dashed line from `(0, 0)` to `(2, 0)` with stroke width `1` (odd
integer part, `p1.x ≠ p2.x`) the function returns `(3/2, 0)` for both points: after the
inset by the stroke width the two x-coordinates coincide, so the half is added to the
x-coordinates and the y-coordinates are returned unchanged. -/
theorem adjustLineToPixelBoundaries_collapsed_dashed :
    Odd (truncateToInt 1) ∧
    (⟨0, 0⟩ : FloatPoint).x ≠ (⟨2, 0⟩ : FloatPoint).x ∧
    adjustLineToPixelBoundaries ⟨0, 0⟩ ⟨2, 0⟩ 1 StrokeStyle.DashedStroke
      = (⟨3 / 2, 0⟩, ⟨3 / 2, 0⟩) ∧
    (adjustLineToPixelBoundaries ⟨0, 0⟩ ⟨2, 0⟩ 1 StrokeStyle.DashedStroke).1.y
      ≠ (⟨0, 0⟩ : FloatPoint).y + 1 / 2 := by
  have hodd : Odd (truncateToInt 1) := by
    rw [← tmod_two_ne_zero_iff_odd]
    decide
  have ht := (tmod_two_ne_zero_iff_odd _).mpr hodd
  have hval : adjustLineToPixelBoundaries ⟨0, 0⟩ ⟨2, 0⟩ 1 StrokeStyle.DashedStroke
      = (⟨3 / 2, 0⟩, ⟨3 / 2, 0⟩) := by
    unfold adjustLineToPixelBoundaries
    norm_num [ht]
  refine ⟨hodd, by norm_num, hval, ?_⟩
  rw [hval]
  norm_num

theorem StateChangeFlags.containsAny_iff (self other : StateChangeFlags) :
    self.containsAny other = true ↔ ∃ flag, flag ∈ self ∧ flag ∈ other := by
  unfold StateChangeFlags.containsAny
  rw [decide_eq_true_iff, ← Finset.nonempty_iff_ne_empty]
  constructor
  · rintro ⟨x, hx⟩
    exact ⟨x, (Finset.mem_inter.mp hx).1, (Finset.mem_inter.mp hx).2⟩
  · rintro ⟨x, h1, h2⟩
    exact ⟨x, Finset.mem_inter.mpr ⟨h1, h2⟩⟩

theorem StateChangeFlags.containsAny_pair (self : StateChangeFlags) (a b : Change) :
    self.containsAny {a, b} = true ↔ (a ∈ self ∨ b ∈ self) := by
  rw [StateChangeFlags.containsAny_iff]
  constructor
  · rintro ⟨x, hx, hmem⟩
    simp only [Finset.mem_insert, Finset.mem_singleton] at hmem
    rcases hmem with rfl | rfl
    · exact Or.inl hx
    · exact Or.inr hx
  · rintro (h | h)
    · exact ⟨_, h, by simp⟩
    · exact ⟨_, h, by simp⟩

theorem StateChangeFlags.containsAny_triple (self : StateChangeFlags) (a b c : Change) :
    self.containsAny {a, b, c} = true ↔ (a ∈ self ∨ b ∈ self ∨ c ∈ self) := by
  rw [StateChangeFlags.containsAny_iff]
  constructor
  · rintro ⟨x, hx, hmem⟩
    simp only [Finset.mem_insert, Finset.mem_singleton] at hmem
    rcases hmem with rfl | rfl | rfl
    · exact Or.inl hx
    · exact Or.inr (Or.inl hx)
    · exact Or.inr (Or.inr hx)
  · rintro (h | h | h)
    · exact ⟨_, h, by simp⟩
    · exact ⟨_, h, by simp⟩
    · exact ⟨_, h, by simp⟩

theorem mem_CHECK_FOR_CHANGED_PROPERTY (m acc : StateChangeFlags) (flag x : Change)
    (differs : Bool) :
    x ∈ CHECK_FOR_CHANGED_PROPERTY m acc flag differs ↔
      x ∈ acc ∨ (x = flag ∧ flag ∈ m ∧ differs = true) := by
  unfold CHECK_FOR_CHANGED_PROPERTY StateChangeFlags.contains StateChangeFlags.addFlag
  by_cases h : flag ∈ m <;> cases differs <;> simp [h, or_comm]

theorem mem_ite_addFlag (acc : StateChangeFlags) (flag x : Change) (p : Prop)
    [Decidable p] :
    x ∈ (if p then acc.addFlag flag else acc) ↔ x ∈ acc ∨ (x = flag ∧ p) := by
  unfold StateChangeFlags.addFlag
  by_cases hp : p <;> simp [hp, or_comm]

theorem mem_ite_addFlag_pair (acc : StateChangeFlags) (flag1 flag2 x : Change) (p : Prop)
    [Decidable p] :
    x ∈ (if p then (acc.addFlag flag1).addFlag flag2 else acc) ↔
      x ∈ acc ∨ ((x = flag1 ∨ x = flag2) ∧ p) := by
  unfold StateChangeFlags.addFlag
  by_cases hp : p
  · simp only [hp, if_true, Finset.mem_insert, and_true]
    tauto
  · simp [hp]

theorem GraphicsContextStateChange.mem_changesFromState (c : GraphicsContextStateChange)
    (s : GraphicsContextState) (flag : Change) :
    flag ∈ c.changesFromState s ↔
      (if flag = Change.CompositeOperationChange ∨ flag = Change.BlendModeChange then
          Change.CompositeOperationChange ∈ c.m_changeFlags ∨
            Change.BlendModeChange ∈ c.m_changeFlags
        else flag ∈ c.m_changeFlags) ∧
      propertyDiffers flag c.m_state s := by
  unfold GraphicsContextStateChange.changesFromState
  simp only [mem_CHECK_FOR_CHANGED_PROPERTY, mem_ite_addFlag, mem_ite_addFlag_pair,
    Finset.not_mem_empty, false_or, Bool.and_eq_true, StateChangeFlags.containsAny_pair]
  cases flag <;> simp [propertyDiffers, StateChangeFlags.contains, or_assoc]

theorem FloatValue.notEqual_self (a : FloatValue) :
    a.notEqual a = decide (a = FloatValue.nan) := by
  cases a <;> simp [FloatValue.notEqual, FloatValue.equal]

theorem FloatSize.notEqual_same_size (a : FloatSize) :
    a.notEqual a = (decide (a.width = FloatValue.nan) || decide (a.height = FloatValue.nan)) := by
  simp [FloatSize.notEqual, FloatValue.notEqual_self]

namespace GraphicsContextStateChange

theorem copyWhen_proj {β : Type} (proj : GraphicsContextState → β)
    (c : GraphicsContextStateChange) (condition : Bool)
    (update : GraphicsContextState → GraphicsContextState) :
    proj (c.copyWhen condition update).m_state
      = if condition = true then proj (update c.m_state) else proj c.m_state := by
  unfold copyWhen
  cases condition <;> rfl

theorem ite_proj {β : Type} (proj : GraphicsContextState → β) (p : Prop) [Decidable p]
    (a b : GraphicsContextStateChange) :
    proj (if p then a else b).m_state = if p then proj a.m_state else proj b.m_state := by
  by_cases hp : p <;> simp [hp]

theorem copyWhen_m_changeFlags (c : GraphicsContextStateChange) (condition : Bool)
    (update : GraphicsContextState → GraphicsContextState) :
    (c.copyWhen condition update).m_changeFlags = c.m_changeFlags := by
  unfold copyWhen
  cases condition <;> rfl

theorem accumulate_m_changeFlags (c : GraphicsContextStateChange) (s : GraphicsContextState)
    (flags : StateChangeFlags) :
    ∃ kept : StateChangeFlags, kept ⊆ c.m_changeFlags ∧
      (c.accumulate s flags).m_changeFlags = kept ∪ flags := by
  unfold accumulate
  simp only [copyWhen_m_changeFlags, StateChangeFlags.add, StateChangeFlags.remove]
  split_ifs
  · exact ⟨_, (Finset.sdiff_subset).trans Finset.sdiff_subset, rfl⟩
  · exact ⟨_, Finset.sdiff_subset, rfl⟩
  · exact ⟨_, Finset.sdiff_subset, rfl⟩
  · exact ⟨_, Finset.Subset.refl _, rfl⟩

theorem accumulate_not_differs (c : GraphicsContextStateChange) (s : GraphicsContextState)
    (flags : StateChangeFlags) (flag : Change) (hflag : flag ∈ flags)
    (hnan : CopiedFloatsNotNaN flag s) :
    ¬ propertyDiffers flag (c.accumulate s flags).m_state s := by
  unfold accumulate
  cases flag <;> simp only [CopiedFloatsNotNaN] at hnan <;>
    simp [propertyDiffers, StateChangeFlags.contains, FloatValue.notEqual_self,
      FloatSize.notEqual_same_size, hnan,
      StateChangeFlags.containsAny_pair, StateChangeFlags.containsAny_triple, hflag,
      copyWhen_proj GraphicsContextState.strokeGradient, ite_proj GraphicsContextState.strokeGradient,
      copyWhen_proj GraphicsContextState.strokePattern, ite_proj GraphicsContextState.strokePattern,
      copyWhen_proj GraphicsContextState.fillGradient, ite_proj GraphicsContextState.fillGradient,
      copyWhen_proj GraphicsContextState.fillPattern, ite_proj GraphicsContextState.fillPattern,
      copyWhen_proj GraphicsContextState.shadowOffset, ite_proj GraphicsContextState.shadowOffset,
      copyWhen_proj GraphicsContextState.shadowBlur, ite_proj GraphicsContextState.shadowBlur,
      copyWhen_proj GraphicsContextState.shadowColor, ite_proj GraphicsContextState.shadowColor,
      copyWhen_proj GraphicsContextState.strokeThickness, ite_proj GraphicsContextState.strokeThickness,
      copyWhen_proj GraphicsContextState.textDrawingMode, ite_proj GraphicsContextState.textDrawingMode,
      copyWhen_proj GraphicsContextState.strokeColor, ite_proj GraphicsContextState.strokeColor,
      copyWhen_proj GraphicsContextState.fillColor, ite_proj GraphicsContextState.fillColor,
      copyWhen_proj GraphicsContextState.strokeStyle, ite_proj GraphicsContextState.strokeStyle,
      copyWhen_proj GraphicsContextState.fillRule, ite_proj GraphicsContextState.fillRule,
      copyWhen_proj GraphicsContextState.alpha, ite_proj GraphicsContextState.alpha,
      copyWhen_proj GraphicsContextState.compositeOperator, ite_proj GraphicsContextState.compositeOperator,
      copyWhen_proj GraphicsContextState.blendMode, ite_proj GraphicsContextState.blendMode,
      copyWhen_proj GraphicsContextState.imageInterpolationQuality, ite_proj GraphicsContextState.imageInterpolationQuality,
      copyWhen_proj GraphicsContextState.shouldAntialias, ite_proj GraphicsContextState.shouldAntialias,
      copyWhen_proj GraphicsContextState.shouldSmoothFonts, ite_proj GraphicsContextState.shouldSmoothFonts,
      copyWhen_proj GraphicsContextState.shouldSubpixelQuantizeFonts, ite_proj GraphicsContextState.shouldSubpixelQuantizeFonts,
      copyWhen_proj GraphicsContextState.shadowsIgnoreTransforms, ite_proj GraphicsContextState.shadowsIgnoreTransforms,
      copyWhen_proj GraphicsContextState.drawLuminanceMask, ite_proj GraphicsContextState.drawLuminanceMask,
      ite_self]

end GraphicsContextStateChange

/-- C11: when every compared property of the state stored in a `GraphicsContextStateChange`
equals that of `state`, `changesFromState(state)` is the empty flag set, whatever change
flags are set. -/
theorem changesFromState_identical (c : GraphicsContextStateChange)
    (state : GraphicsContextState) (h : ComparedPropertiesEqual c.m_state state) :
    c.changesFromState state = ∅ := by
  obtain ⟨h1, h2, h3, h4, h5, h6, h7, h8, h9, h10, h11, h12, h13, h14, h15, h16, h17, h18,
    h19, h20, h21, h22⟩ := h
  rw [Finset.eq_empty_iff_forall_not_mem]
  intro flag hmem
  have hd := ((GraphicsContextStateChange.mem_changesFromState c state flag).mp hmem).2
  cases flag <;> simp_all [propertyDiffers]

theorem changesFromState_identical_witness :
    ComparedPropertiesEqual exampleStateChange.m_state
      { exampleStateChange.m_state with strokeGradientSpaceTransform := [1, 0, 0, 1, 0, 0] } ∧
    exampleStateChange.changesFromState
      { exampleStateChange.m_state with strokeGradientSpaceTransform := [1, 0, 0, 1, 0, 0] }
      = ∅ :=
  have h : ComparedPropertiesEqual exampleStateChange.m_state
      { exampleStateChange.m_state with strokeGradientSpaceTransform := [1, 0, 0, 1, 0, 0] } :=
    ⟨rfl, rfl, rfl, rfl, rfl, rfl, rfl, rfl, rfl, rfl, rfl, rfl, rfl, rfl, rfl, rfl, rfl, rfl,
      rfl, rfl, rfl, rfl⟩
  ⟨h, changesFromState_identical exampleStateChange _ h⟩

/-- C13, as the code falsifies it: with the alpha flag accumulated from a state whose alpha
is NaN, the copied alpha differs from its source under the float comparison, so
`changesFromState` reports the alpha flag although it is a flag of `F`. -/
theorem accumulate_nan_alpha_reported :
    Change.AlphaChange ∈ ({Change.AlphaChange} : StateChangeFlags) ∧
    Change.AlphaChange ∈
      (exampleStateChange.accumulate { exampleState with alpha := FloatValue.nan }
        {Change.AlphaChange}).changesFromState
        { exampleState with alpha := FloatValue.nan } := by
  constructor <;> decide

/-- C13, amended: when no float member of `s` that is copied for a flag of `F` is NaN, then
after `c.accumulate(s, F)` the change flags of `c` contain every flag of `F` and
`c.changesFromState(s)` contains no flag of `F`, also when `F` holds a single stroke flag,
a single fill flag, or only one of the composite-operation and blend-mode flags; if `c` had
no change flags before the call, `c.changesFromState(s)` is empty afterwards. -/
theorem accumulate_then_changesFromState (c : GraphicsContextStateChange)
    (s : GraphicsContextState) (flags : StateChangeFlags)
    (hfloat : ∀ flag ∈ flags, CopiedFloatsNotNaN flag s) :
    flags ⊆ (c.accumulate s flags).m_changeFlags ∧
    (∀ flag ∈ flags, flag ∉ (c.accumulate s flags).changesFromState s) ∧
    (c.m_changeFlags = ∅ → (c.accumulate s flags).changesFromState s = ∅) := by
  obtain ⟨kept, hkept, hflags⟩ := GraphicsContextStateChange.accumulate_m_changeFlags c s flags
  refine ⟨?_, ?_, ?_⟩
  · rw [hflags]
    exact Finset.subset_union_right
  · intro flag hflag hmem
    exact GraphicsContextStateChange.accumulate_not_differs c s flags flag hflag
      (hfloat flag hflag)
      ((GraphicsContextStateChange.mem_changesFromState _ s flag).mp hmem).2
  · intro hempty
    have hk : kept = ∅ := Finset.subset_empty.mp (hempty ▸ hkept)
    rw [hk, Finset.empty_union] at hflags
    rw [Finset.eq_empty_iff_forall_not_mem]
    intro flag hmem
    obtain ⟨hown, hdiff⟩ := (GraphicsContextStateChange.mem_changesFromState _ s flag).mp hmem
    rw [hflags] at hown
    by_cases hpair : flag = Change.CompositeOperationChange ∨ flag = Change.BlendModeChange
    · rw [if_pos hpair] at hown
      have hd : propertyDiffers Change.CompositeOperationChange
            (c.accumulate s flags).m_state s ∧
          propertyDiffers Change.BlendModeChange (c.accumulate s flags).m_state s := by
        rcases hpair with rfl | rfl <;> exact ⟨hdiff, hdiff⟩
      rcases hown with h | h
      · exact GraphicsContextStateChange.accumulate_not_differs c s flags _ h
          (hfloat _ h) hd.1
      · exact GraphicsContextStateChange.accumulate_not_differs c s flags _ h
          (hfloat _ h) hd.2
    · rw [if_neg hpair] at hown
      exact GraphicsContextStateChange.accumulate_not_differs c s flags flag hown
        (hfloat flag hown) hdiff

theorem accumulate_then_changesFromState_witness :
    (∀ flag ∈ ({Change.AlphaChange, Change.ShadowChange, Change.BlendModeChange} :
        StateChangeFlags), CopiedFloatsNotNaN flag exampleState) ∧
    ({Change.AlphaChange, Change.ShadowChange, Change.BlendModeChange} : StateChangeFlags) ⊆
      (exampleEmptyStateChange.accumulate exampleState
        {Change.AlphaChange, Change.ShadowChange, Change.BlendModeChange}).m_changeFlags ∧
    (∀ flag ∈ ({Change.AlphaChange, Change.ShadowChange, Change.BlendModeChange} :
        StateChangeFlags),
      flag ∉ (exampleEmptyStateChange.accumulate exampleState
        {Change.AlphaChange, Change.ShadowChange, Change.BlendModeChange}).changesFromState
        exampleState) ∧
    (exampleEmptyStateChange.m_changeFlags = ∅ →
      (exampleEmptyStateChange.accumulate exampleState
        {Change.AlphaChange, Change.ShadowChange, Change.BlendModeChange}).changesFromState
        exampleState = ∅) :=
  have hfloat : ∀ flag ∈ ({Change.AlphaChange, Change.ShadowChange, Change.BlendModeChange} :
      StateChangeFlags), CopiedFloatsNotNaN flag exampleState := by
    intro flag hflag
    simp only [Finset.mem_insert, Finset.mem_singleton] at hflag
    rcases hflag with rfl | rfl | rfl <;> simp [CopiedFloatsNotNaN, exampleState]
  ⟨hfloat, accumulate_then_changesFromState exampleEmptyStateChange exampleState _ hfloat⟩

/-- C14: every flag reported by `changesFromState` other than the composite-operation and
blend-mode flags is one of the receiver's own change flags; the composite-operation flag is
reported if and only if the blend-mode flag is, and that happens exactly when the receiver's
flags contain at least one of the two and the composite operator or the blend mode
differs. -/
theorem changesFromState_reported_flags (c : GraphicsContextStateChange)
    (s : GraphicsContextState) :
    (∀ flag ∈ c.changesFromState s, flag ≠ Change.CompositeOperationChange →
      flag ≠ Change.BlendModeChange → flag ∈ c.m_changeFlags) ∧
    (Change.CompositeOperationChange ∈ c.changesFromState s ↔
      Change.BlendModeChange ∈ c.changesFromState s) ∧
    (Change.CompositeOperationChange ∈ c.changesFromState s ↔
      (Change.CompositeOperationChange ∈ c.m_changeFlags ∨
        Change.BlendModeChange ∈ c.m_changeFlags) ∧
      (c.m_state.compositeOperator ≠ s.compositeOperator ∨
        c.m_state.blendMode ≠ s.blendMode)) := by
  refine ⟨fun flag hmem h1 h2 => ?_, ?_, ?_⟩
  · have h := ((GraphicsContextStateChange.mem_changesFromState c s flag).mp hmem).1
    rwa [if_neg (by simp [h1, h2])] at h
  · rw [GraphicsContextStateChange.mem_changesFromState,
      GraphicsContextStateChange.mem_changesFromState]
    simp [propertyDiffers]
  · rw [GraphicsContextStateChange.mem_changesFromState]
    simp [propertyDiffers]

theorem changesFromState_example :
    exampleStateChange.changesFromState exampleState
      = {Change.FillRuleChange, Change.CompositeOperationChange, Change.BlendModeChange} ∧
    (exampleStateChange.accumulate exampleState {Change.FillRuleChange}).changesFromState
      exampleState = {Change.CompositeOperationChange, Change.BlendModeChange} ∧
    (exampleStateChange.accumulate exampleState {Change.BlendModeChange}).changesFromState
      exampleState = {Change.FillRuleChange} := by
  refine ⟨?_, ?_, ?_⟩ <;> decide

end WebCore

namespace WGSL.AST

theorem Use.apply_type {E : Type} (use : Use E) (s : TypeAlias × (ExpressionRef → E)) :
    (use.apply s).1.type = s.1.type ∧
      (use.apply s).1.toDeclaration = s.1.toDeclaration := by
  obtain ⟨node, store⟩ := s
  cases use <;> exact ⟨rfl, rfl⟩

theorem runUses_type {E : Type} (uses : List (Use E)) :
    ∀ s : TypeAlias × (ExpressionRef → E),
      (runUses uses s).1.type = s.1.type ∧
        (runUses uses s).1.toDeclaration = s.1.toDeclaration := by
  induction uses with
  | nil => intro s; exact ⟨rfl, rfl⟩
  | cons use rest ih =>
    intro s
    have h := ih (use.apply s)
    have hstep := Use.apply_type use s
    exact ⟨h.1.trans hstep.1, h.2.trans hstep.2⟩

/-- C12: a `TypeAlias` is a `Declaration` carrying its constructor arguments: built from
`(span, n, t)` it has the span `span`, `name()` returns `n` and `type()` refers to the
expression `t`; and no sequence of uses of the class interface, assignments through the
returned references included, changes which expression `type()` refers to. -/
theorem TypeAlias.carries_constructor_arguments (span : SourceSpan) (n : Identifier)
    (t : ExpressionRef) :
    (TypeAlias.construct span n t).toDeclaration.span = span ∧
    (TypeAlias.construct span n t).name = n ∧
    (TypeAlias.construct span n t).type = t ∧
    (∀ (E : Type) (uses : List (Use E)) (store : ExpressionRef → E),
      (runUses uses (TypeAlias.construct span n t, store)).1.type = t) := by
  refine ⟨rfl, rfl, rfl, fun E uses store => ?_⟩
  exact (runUses_type uses (TypeAlias.construct span n t, store)).1

theorem TypeAlias.example_uses :
    (runUses [Use.assignThroughName ⟨⟨1, 0, 0, 1⟩, "U"⟩, Use.assignThroughType "vec4<f32>",
        Use.kind]
      (TypeAlias.construct ⟨1, 0, 0, 12⟩ ⟨⟨1, 6, 6, 1⟩, "T"⟩ 5, fun _ => "f32")).1.type = 5 ∧
    (runUses [Use.assignThroughName ⟨⟨1, 0, 0, 1⟩, "U"⟩, Use.assignThroughType "vec4<f32>",
        Use.kind]
      (TypeAlias.construct ⟨1, 0, 0, 12⟩ ⟨⟨1, 6, 6, 1⟩, "T"⟩ 5, fun _ => "f32")).1.name.id
      = "U" := by
  constructor <;> rfl

end WGSL.AST

namespace WebCore

theorem PaintSourcesExclusive.of_construct :
    PaintSourcesExclusive GraphicsContextState.construct := by
  simp [PaintSourcesExclusive, GraphicsContextState.construct]

theorem Setter.apply_paintSources (s : Setter) (c : GraphicsContext)
    (h : PaintSourcesExclusive c.m_state) : PaintSourcesExclusive (s.apply c).m_state := by
  obtain ⟨h1, h2, h3, h4⟩ := h
  cases s <;> cases hi : c.m_impl <;> cases hp : c.paintingDisabled <;>
    (simp [PaintSourcesExclusive, Setter.apply, GraphicsContext.setStrokeThickness,
      GraphicsContext.setStrokeStyle,
      GraphicsContext.setStrokeColor, GraphicsContext.setShadow, GraphicsContext.setLegacyShadow,
      GraphicsContext.clearShadow, GraphicsContext.setFillColor,
      GraphicsContext.setShadowsIgnoreTransforms, GraphicsContext.setShouldAntialias,
      GraphicsContext.setShouldSmoothFonts, GraphicsContext.setShouldSubpixelQuantizeFonts,
      GraphicsContext.setImageInterpolationQuality, GraphicsContext.setStrokePattern,
      GraphicsContext.setFillPattern, GraphicsContext.setStrokeGradient,
      GraphicsContext.setFillRule, GraphicsContext.setFillGradient,
      GraphicsContext.setTextDrawingMode, GraphicsContext.setAlpha,
      GraphicsContext.setCompositeOperation, GraphicsContext.setDrawLuminanceMask,
      GraphicsContext.notify, GraphicsContext.emit, hi, hp, h1, h3]
     try first | exact ⟨h2, h4⟩ | exact h2 | exact h4)

theorem Op.step_paintSources (op : Op) (c : GraphicsContext)
    (h : PaintSourcesExclusive c.m_state ∧ ∀ s ∈ c.m_stack, PaintSourcesExclusive s) :
    PaintSourcesExclusive (op.apply c).m_state ∧
      ∀ s ∈ (op.apply c).m_stack, PaintSourcesExclusive s := by
  obtain ⟨hstate, hstack⟩ := h
  cases op with
  | set s =>
    refine ⟨Setter.apply_paintSources s c hstate, ?_⟩
    simp only [Op.apply, (Setter.apply_stack s c).1]
    exact hstack
  | save =>
    simp only [Op.apply, GraphicsContext.save, GraphicsContext.emit]
    cases c.paintingDisabled <;> cases c.m_impl <;> simp <;>
      first
        | exact ⟨hstate, hstack⟩
        | exact ⟨hstate, fun s hs => hs.elim (hstack s) (fun e => e ▸ hstate)⟩
  | restore =>
    simp only [Op.apply, GraphicsContext.restore, GraphicsContext.emit]
    cases hp : c.paintingDisabled
    · cases hl : c.m_stack.getLast? with
      | none => simpa using ⟨hstate, hstack⟩
      | some top =>
        have htop : top ∈ c.m_stack := List.mem_of_getLast?_eq_some hl
        have hdrop : ∀ s ∈ c.m_stack.dropLast, PaintSourcesExclusive s :=
          fun s hs => hstack s (List.dropLast_subset _ hs)
        cases c.m_impl <;> by_cases he : c.m_stack.dropLast = [] <;>
          simp [he, hstack top htop] <;> exact hdrop
    · simpa using ⟨hstate, hstack⟩

theorem runOps_paintSources (ops : List Op) :
    ∀ c : GraphicsContext,
      (PaintSourcesExclusive c.m_state ∧ ∀ s ∈ c.m_stack, PaintSourcesExclusive s) →
      PaintSourcesExclusive (runOps ops c).m_state ∧
        ∀ s ∈ (runOps ops c).m_stack, PaintSourcesExclusive s := by
  induction ops with
  | nil => intro c h; exact h
  | cons op rest ih =>
    intro c h
    rw [runOps_cons]
    exact ih _ (Op.step_paintSources op c h)

/-- C15: in every state reached from the default-constructed state by calls of the three
stroke setters, the three fill setters, `save` and `restore`, at most one of the stroke
gradient and stroke pattern is set and the stroke color is the invalid color whenever one of
them is, and the same holds for the fill; each of the six setters leaves its own paint
source as the only one set. -/
theorem paint_sources_exclusive (c : GraphicsContext) (ops : List Op)
    (hstate : c.m_state = GraphicsContextState.construct) (hstack : c.m_stack = [])
    (_hops : ∀ op ∈ ops, op.isPaintOp = true) :
    PaintSourcesExclusive (runOps ops c).m_state ∧
    (∀ (d : GraphicsContext) (color : Color),
      (d.setStrokeColor color).m_state.strokeColor = color ∧
      (d.setStrokeColor color).m_state.strokeGradient = none ∧
      (d.setStrokeColor color).m_state.strokePattern = none ∧
      (d.setFillColor color).m_state.fillColor = color ∧
      (d.setFillColor color).m_state.fillGradient = none ∧
      (d.setFillColor color).m_state.fillPattern = none) ∧
    (∀ (d : GraphicsContext) (gradient : GradientRef) (transform : AffineTransform),
      (d.setStrokeGradient gradient transform).m_state.strokeGradient = some gradient ∧
      (d.setStrokeGradient gradient transform).m_state.strokePattern = none ∧
      (d.setStrokeGradient gradient transform).m_state.strokeColor = Color.invalid ∧
      (d.setFillGradient gradient transform).m_state.fillGradient = some gradient ∧
      (d.setFillGradient gradient transform).m_state.fillPattern = none ∧
      (d.setFillGradient gradient transform).m_state.fillColor = Color.invalid) ∧
    (∀ (d : GraphicsContext) (pattern : PatternRef),
      (d.setStrokePattern pattern).m_state.strokePattern = some pattern ∧
      (d.setStrokePattern pattern).m_state.strokeGradient = none ∧
      (d.setStrokePattern pattern).m_state.strokeColor = Color.invalid ∧
      (d.setFillPattern pattern).m_state.fillPattern = some pattern ∧
      (d.setFillPattern pattern).m_state.fillGradient = none ∧
      (d.setFillPattern pattern).m_state.fillColor = Color.invalid) := by
  refine ⟨?_, ?_, ?_, ?_⟩
  · refine (runOps_paintSources ops c ⟨?_, ?_⟩).1
    · rw [hstate]; exact PaintSourcesExclusive.of_construct
    · rw [hstack]; intro s hs; cases hs
  · intro d color
    cases hi : d.m_impl <;>
      simp [GraphicsContext.setStrokeColor, GraphicsContext.setFillColor,
        GraphicsContext.notify, GraphicsContext.emit, hi]
  · intro d gradient transform
    cases hi : d.m_impl <;>
      simp [GraphicsContext.setStrokeGradient, GraphicsContext.setFillGradient,
        GraphicsContext.notify, GraphicsContext.emit, hi]
  · intro d pattern
    cases hi : d.m_impl <;>
      simp [GraphicsContext.setStrokePattern, GraphicsContext.setFillPattern,
        GraphicsContext.notify, GraphicsContext.emit, hi]

theorem paint_sources_exclusive_witness :
    ({ exampleContext with m_state := GraphicsContextState.construct } : GraphicsContext).m_state
      = GraphicsContextState.construct ∧
    ({ exampleContext with m_state := GraphicsContextState.construct } : GraphicsContext).m_stack
      = [] ∧
    (∀ op ∈ examplePaintOps, op.isPaintOp = true) ∧
    PaintSourcesExclusive (runOps examplePaintOps
      { exampleContext with m_state := GraphicsContextState.construct }).m_state ∧
    (∀ (d : GraphicsContext) (color : Color),
      (d.setStrokeColor color).m_state.strokeColor = color ∧
      (d.setStrokeColor color).m_state.strokeGradient = none ∧
      (d.setStrokeColor color).m_state.strokePattern = none ∧
      (d.setFillColor color).m_state.fillColor = color ∧
      (d.setFillColor color).m_state.fillGradient = none ∧
      (d.setFillColor color).m_state.fillPattern = none) ∧
    (∀ (d : GraphicsContext) (gradient : GradientRef) (transform : AffineTransform),
      (d.setStrokeGradient gradient transform).m_state.strokeGradient = some gradient ∧
      (d.setStrokeGradient gradient transform).m_state.strokePattern = none ∧
      (d.setStrokeGradient gradient transform).m_state.strokeColor = Color.invalid ∧
      (d.setFillGradient gradient transform).m_state.fillGradient = some gradient ∧
      (d.setFillGradient gradient transform).m_state.fillPattern = none ∧
      (d.setFillGradient gradient transform).m_state.fillColor = Color.invalid) ∧
    (∀ (d : GraphicsContext) (pattern : PatternRef),
      (d.setStrokePattern pattern).m_state.strokePattern = some pattern ∧
      (d.setStrokePattern pattern).m_state.strokeGradient = none ∧
      (d.setStrokePattern pattern).m_state.strokeColor = Color.invalid ∧
      (d.setFillPattern pattern).m_state.fillPattern = some pattern ∧
      (d.setFillPattern pattern).m_state.fillGradient = none ∧
      (d.setFillPattern pattern).m_state.fillColor = Color.invalid) :=
  have hops : ∀ op ∈ examplePaintOps, op.isPaintOp = true := by
    simp [examplePaintOps, Op.isPaintOp]
  ⟨rfl, rfl, hops,
    paint_sources_exclusive { exampleContext with m_state := GraphicsContextState.construct }
      examplePaintOps rfl rfl hops⟩

theorem paint_sources_example :
    (runOps examplePaintOps
      { exampleContext with m_state := GraphicsContextState.construct }).m_state.strokeGradient
      = some 7 ∧
    (runOps examplePaintOps
      { exampleContext with m_state := GraphicsContextState.construct }).m_state.strokeColor
      = Color.invalid ∧
    (runOps examplePaintOps
      { exampleContext with m_state := GraphicsContextState.construct }).m_state.fillPattern
      = none := by
  refine ⟨?_, ?_, ?_⟩ <;> rfl

section RSA_PSS_configuration

variable {MD PKey Ctx HashId : Type}

/-- C16: for the same parameters, key and data, `platformSign` and `platformVerify` are the
same preparation followed by the signing resp. verifying call: the key context is configured
by the same four calls (`RSA_PKCS1_PSS_PADDING`, `parameters.saltLength`, and the digest
algorithm of the key's hash identifier as signature digest and as MGF1 digest), and the
bytes passed to `EVP_PKEY_sign` and `EVP_PKEY_verify` are the digest of the data under that
algorithm. -/
theorem sign_verify_same_configuration (ssl : OpenSSL MD PKey Ctx HashId)
    (parameters : CryptoAlgorithmRsaPssParams) (key : CryptoKeyRSA PKey HashId)
    (signature data : List Byte) :
    platformSign ssl parameters key data
      = (match Spec.prepare ssl ssl.EVP_PKEY_sign_init parameters key data with
        | .error e => .error e
        | .ok (ctx, digest) => Spec.sign ssl ctx digest) ∧
    platformVerify ssl parameters key signature data
      = (match Spec.prepare ssl ssl.EVP_PKEY_verify_init parameters key data with
        | .error e => .error e
        | .ok (ctx, digest) => Spec.verify ssl ctx signature digest) ∧
    (∀ (init : Ctx → Int × Ctx) (ctx : Ctx) (digest : List Byte),
      Spec.prepare ssl init parameters key data = .ok (ctx, digest) →
      ∃ md c0,
        ssl.digestAlgorithm key.hashAlgorithmIdentifier = some md ∧
        ssl.calculateDigest md data = some digest ∧
        ssl.EVP_PKEY_CTX_new key.platformKey = some c0 ∧
        ctx = (ssl.EVP_PKEY_CTX_set_rsa_mgf1_md
                (ssl.EVP_PKEY_CTX_set_signature_md
                  (ssl.EVP_PKEY_CTX_set_rsa_pss_saltlen
                    (ssl.EVP_PKEY_CTX_set_rsa_padding (init c0).2 RSA_PKCS1_PSS_PADDING).2
                    parameters.saltLength).2
                  md).2
                md).2) := by
  refine ⟨?_, ?_, ?_⟩
  · cases hmd : ssl.digestAlgorithm key.hashAlgorithmIdentifier with
    | none => simp only [platformSign, Spec.prepare, hmd]
    | some md =>
      cases hdig : ssl.calculateDigest md data with
      | none => simp only [platformSign, Spec.prepare, hmd, hdig]
      | some digest =>
        cases hc0 : ssl.EVP_PKEY_CTX_new key.platformKey with
        | none => simp only [platformSign, Spec.prepare, hmd, hdig, hc0]
        | some c0 =>
          simp only [platformSign, Spec.prepare, Spec.configurePss, Spec.sign, hmd, hdig, hc0]
          split_ifs <;> simp [*]
  · cases hmd : ssl.digestAlgorithm key.hashAlgorithmIdentifier with
    | none => simp only [platformVerify, Spec.prepare, hmd]
    | some md =>
      cases hdig : ssl.calculateDigest md data with
      | none => simp only [platformVerify, Spec.prepare, hmd, hdig]
      | some digest =>
        cases hc0 : ssl.EVP_PKEY_CTX_new key.platformKey with
        | none => simp only [platformVerify, Spec.prepare, hmd, hdig, hc0]
        | some c0 =>
          simp only [platformVerify, Spec.prepare, Spec.configurePss, Spec.verify, hmd, hdig, hc0]
          split_ifs <;> simp [*]
  · intro init ctx digest h
    unfold Spec.prepare Spec.configurePss at h
    cases hmd : ssl.digestAlgorithm key.hashAlgorithmIdentifier with
    | none => simp [hmd] at h
    | some md =>
      cases hdig : ssl.calculateDigest md data with
      | none => simp [hmd, hdig] at h
      | some digest2 =>
        cases hc0 : ssl.EVP_PKEY_CTX_new key.platformKey with
        | none => simp [hmd, hdig, hc0] at h
        | some c0 =>
          simp only [hmd, hdig, hc0] at h
          split_ifs at h
          simp at h
          exact ⟨md, c0, rfl, by rw [hdig, h.2], rfl, h.1.symm⟩

end RSA_PSS_configuration

theorem recordingOpenSSL_example :
    Spec.prepare recordingOpenSSL recordingOpenSSL.EVP_PKEY_sign_init ⟨32⟩ ⟨1, ()⟩ [7, 9]
      = .ok ([PKeyCall.sign_init, PKeyCall.set_rsa_padding RSA_PKCS1_PSS_PADDING,
          PKeyCall.set_rsa_pss_saltlen 32, PKeyCall.set_signature_md 101,
          PKeyCall.set_rsa_mgf1_md 101], [101, 9, 7]) ∧
    Spec.prepare recordingOpenSSL recordingOpenSSL.EVP_PKEY_verify_init ⟨32⟩ ⟨1, ()⟩ [7, 9]
      = .ok ([PKeyCall.verify_init, PKeyCall.set_rsa_padding RSA_PKCS1_PSS_PADDING,
          PKeyCall.set_rsa_pss_saltlen 32, PKeyCall.set_signature_md 101,
          PKeyCall.set_rsa_mgf1_md 101], [101, 9, 7]) ∧
    platformSign recordingOpenSSL ⟨32⟩ ⟨1, ()⟩ [7, 9] = .ok [101, 9, 7] ∧
    platformVerify recordingOpenSSL ⟨32⟩ ⟨1, ()⟩ [101, 9, 7] [7, 9] = .ok true ∧
    platformVerify recordingOpenSSL ⟨32⟩ ⟨1, ()⟩ [7, 9] [7, 9] = .ok false := by
  refine ⟨?_, ?_, ?_, ?_, ?_⟩ <;> rfl

end WebCore
